import Mathlib

/-!
Verification of the paged register window routines of the LSM6DSO32 driver
(file lsm6dso32_reg.c): lsm6dso32_mem_bank_set, lsm6dso32_mem_bank_get,
lsm6dso32_ln_pg_write and lsm6dso32_ln_pg_read.

The driver talks to the device through a caller-supplied register transport
(stmdev_ctx_t with read_reg / write_reg function pointers).  We embed the
driver functions as Lean functions parameterised over such a transport,
threading the transport state explicitly.  Registers are modelled at bit-field
granularity: the header file with the bit layouts is not part of the sources,
so a register transaction carries the value of the named field of the register
plus one extra value standing for the remaining (reserved / unused) bits.
This is faithful to the C code, which only ever reads or assigns whole named
fields of the per-register structs.

Machine integer behaviour of the C code is made explicit: lsb and msb are
uint8_t so increments are taken mod 256, the page_sel bit-field is the 4-bit
page index (the spec: page index 0-15, high nibble of the linear address) so
assignments to it are taken mod 16, and statuses are int32_t, modelled as Int
(no arithmetic in the driver can overflow 32 bits here).
-/

/-- Registers of the embedded-function bank touched by the paged window
routines, plus the bank selector register. -/
inductive Reg where
  | LSM6DSO32_FUNC_CFG_ACCESS
  | LSM6DSO32_PAGE_RW
  | LSM6DSO32_PAGE_SEL
  | LSM6DSO32_PAGE_ADDRESS
  | LSM6DSO32_PAGE_VALUE
deriving DecidableEq, Repr

open Reg

/-- Modelled from the spec: the register bank enum lsm6dso32_reg_access_t is
declared in the header, which is not among the sources; the spec names the
three banks user / sensor hub / embedded function.  User bank value. -/
def LSM6DSO32_USER_BANK : Nat := 0

/-- Modelled from the spec: sensor hub bank value of lsm6dso32_reg_access_t. -/
def LSM6DSO32_SENSOR_HUB_BANK : Nat := 1

/-- Modelled from the spec: embedded function bank value of
lsm6dso32_reg_access_t. -/
def LSM6DSO32_EMBEDDED_FUNC_BANK : Nat := 2

/-- Result of a transport read: new transport state, status, the named field
of the register read and the remaining bits of the register. -/
structure RRes (σ : Type) where
  s : σ
  ret : Int
  v1 : Nat
  v2 : Nat

/-- Result of a transport write: new transport state and status. -/
structure WRes (σ : Type) where
  s : σ
  ret : Int

/-- Result of lsm6dso32_mem_bank_get: state, status and normalised bank. -/
structure GRes (σ : Type) where
  s : σ
  ret : Int
  val : Nat

/-- Result of lsm6dso32_ln_pg_read: state, status and the bytes stored into
the caller's buffer. -/
structure R3 (σ : Type) where
  s : σ
  ret : Int
  data : List Nat

/-- The register transport of the driver (stmdev_ctx_t): a pair of raw
read / write primitives supplied by the caller, here with explicit state.
A write passes the named field of the register and the remaining bits. -/
structure Ctx (σ : Type) where
  read_reg : σ → Reg → RRes σ
  write_reg : σ → Reg → Nat → Nat → WRes σ

/-- Embedding of lsm6dso32_mem_bank_set: read FUNC_CFG_ACCESS, and only if
that read succeeded, write it back with reg_access set to val. -/
def lsm6dso32_mem_bank_set {σ : Type} (ctx : Ctx σ) (s : σ) (val : Nat) :
    WRes σ :=
  let r := ctx.read_reg s LSM6DSO32_FUNC_CFG_ACCESS
  if r.ret = 0 then ctx.write_reg r.s LSM6DSO32_FUNC_CFG_ACCESS val r.v2
  else ⟨r.s, r.ret⟩

/-- Embedding of lsm6dso32_mem_bank_get: read FUNC_CFG_ACCESS and normalise
reg_access through the switch statement; the default case of the switch
yields LSM6DSO32_USER_BANK.  The status of the read is returned unchanged. -/
def lsm6dso32_mem_bank_get {σ : Type} (ctx : Ctx σ) (s : σ) : GRes σ :=
  let r := ctx.read_reg s LSM6DSO32_FUNC_CFG_ACCESS
  let v :=
    if r.v1 = LSM6DSO32_USER_BANK then LSM6DSO32_USER_BANK
    else if r.v1 = LSM6DSO32_SENSOR_HUB_BANK then LSM6DSO32_SENSOR_HUB_BANK
    else if r.v1 = LSM6DSO32_EMBEDDED_FUNC_BANK then LSM6DSO32_EMBEDDED_FUNC_BANK
    else LSM6DSO32_USER_BANK
  ⟨r.s, r.ret, v⟩

/-- The exit label shared by both paged window routines:
ret += lsm6dso32_mem_bank_set(ctx, LSM6DSO32_USER_BANK); return ret. -/
def pg_exit {σ : Type} (ctx : Ctx σ) (s : σ) (ret : Int) : WRes σ :=
  let r := lsm6dso32_mem_bank_set ctx s LSM6DSO32_USER_BANK
  ⟨r.s, ret + r.ret⟩

/-- The transfer loop of lsm6dso32_ln_pg_write over the list of bytes still
to send: write each byte to PAGE_VALUE, increment the uint8_t cursor lsb,
and on page wrap (lsb back to 0) increment msb and re-issue PAGE_SEL
(read-modify-write, page_sel field set to msb, not_used_01 set to 1).
Any nonzero status returns at once (goto exit in the C code). -/
def ln_pg_write_loop {σ : Type} (ctx : Ctx σ) :
    σ → List Nat → Nat → Nat → WRes σ
  | s, [], _, _ => ⟨s, 0⟩
  | s, b :: rest, msb, lsb =>
    let r := ctx.write_reg s LSM6DSO32_PAGE_VALUE b 0
    if r.ret ≠ 0 then ⟨r.s, r.ret⟩ else
    let lsb2 := (lsb + 1) % 256
    if lsb2 = 0 then
      let msb2 := (msb + 1) % 256
      let r1 := ctx.read_reg r.s LSM6DSO32_PAGE_SEL
      if r1.ret ≠ 0 then ⟨r1.s, r1.ret⟩ else
      let r2 := ctx.write_reg r1.s LSM6DSO32_PAGE_SEL (msb2 % 16) 1
      if r2.ret ≠ 0 then ⟨r2.s, r2.ret⟩ else
      ln_pg_write_loop ctx r2.s rest msb2 lsb2
    else ln_pg_write_loop ctx r.s rest msb lsb2

/-- Embedding of lsm6dso32_ln_pg_write.  address is uint16_t: msb is its high
nibble bits 8-11, lsb its low byte.  len is the uint8_t length parameter; the
C code indexes buf[i] for i < len, embedded as buf.getD i 0.  The sequence:
switch to the embedded function bank (early return on failure), set the page
write enable bit (page_rw := 0x02) by read-modify-write, select the page
(page_sel := msb, not_used_01 := 1) by read-modify-write, set the in-page
address, run the transfer loop, then reset the page selector to 0, clear the
enable bits (page_rw := 0x00) and finally restore the user bank (the exit
label, reached from every path after the first bank switch). -/
def lsm6dso32_ln_pg_write {σ : Type} (ctx : Ctx σ) (s : σ) (address : Nat)
    (buf : List Nat) (len : Nat) : WRes σ :=
  let msb := address / 256 % 16
  let lsb := address % 256
  let r0 := lsm6dso32_mem_bank_set ctx s LSM6DSO32_EMBEDDED_FUNC_BANK
  if r0.ret ≠ 0 then ⟨r0.s, r0.ret⟩ else
  let r1 := ctx.read_reg r0.s LSM6DSO32_PAGE_RW
  let r2 := ctx.write_reg r1.s LSM6DSO32_PAGE_RW 2 r1.v2
  if r1.ret + r2.ret ≠ 0 then pg_exit ctx r2.s (r1.ret + r2.ret) else
  let r3 := ctx.read_reg r2.s LSM6DSO32_PAGE_SEL
  let r4 := ctx.write_reg r3.s LSM6DSO32_PAGE_SEL (msb % 16) 1
  if r3.ret + r4.ret ≠ 0 then pg_exit ctx r4.s (r3.ret + r4.ret) else
  let r5 := ctx.write_reg r4.s LSM6DSO32_PAGE_ADDRESS lsb 0
  if r5.ret ≠ 0 then pg_exit ctx r5.s r5.ret else
  let rl := ln_pg_write_loop ctx r5.s ((List.range len).map (fun i => buf.getD i 0)) msb lsb
  if rl.ret ≠ 0 then pg_exit ctx rl.s rl.ret else
  let r6 := ctx.write_reg rl.s LSM6DSO32_PAGE_SEL 0 1
  if r6.ret ≠ 0 then pg_exit ctx r6.s r6.ret else
  let r7 := ctx.read_reg r6.s LSM6DSO32_PAGE_RW
  let r8 := ctx.write_reg r7.s LSM6DSO32_PAGE_RW 0 r7.v2
  pg_exit ctx r8.s (r7.ret + r8.ret)

/-- The transfer loop of lsm6dso32_ln_pg_read: for each byte, first set the
in-page address (PAGE_ADDRESS := lsb), then read PAGE_VALUE into the buffer;
then advance the cursor and handle page wrap exactly as the write loop does.
Any nonzero status returns at once (goto exit in the C code); the byte stored
by a failing PAGE_VALUE read transaction is still part of the buffer. -/
def ln_pg_read_loop {σ : Type} (ctx : Ctx σ) :
    σ → Nat → Nat → Nat → R3 σ
  | s, 0, _, _ => ⟨s, 0, []⟩
  | s, n + 1, msb, lsb =>
    let ra := ctx.write_reg s LSM6DSO32_PAGE_ADDRESS lsb 0
    if ra.ret ≠ 0 then ⟨ra.s, ra.ret, []⟩ else
    let rv := ctx.read_reg ra.s LSM6DSO32_PAGE_VALUE
    if rv.ret ≠ 0 then ⟨rv.s, rv.ret, [rv.v1]⟩ else
    let lsb2 := (lsb + 1) % 256
    if lsb2 = 0 then
      let msb2 := (msb + 1) % 256
      let r1 := ctx.read_reg rv.s LSM6DSO32_PAGE_SEL
      if r1.ret ≠ 0 then ⟨r1.s, r1.ret, [rv.v1]⟩ else
      let r2 := ctx.write_reg r1.s LSM6DSO32_PAGE_SEL (msb2 % 16) 1
      if r2.ret ≠ 0 then ⟨r2.s, r2.ret, [rv.v1]⟩ else
      let rr := ln_pg_read_loop ctx r2.s n msb2 lsb2
      ⟨rr.s, rr.ret, rv.v1 :: rr.data⟩
    else
      let rr := ln_pg_read_loop ctx rv.s n msb lsb2
      ⟨rr.s, rr.ret, rv.v1 :: rr.data⟩

/-- Embedding of lsm6dso32_ln_pg_read.  Mirrors lsm6dso32_ln_pg_write with
the read enable bit (page_rw := 0x01) instead of the write enable bit, with
no PAGE_ADDRESS step before the loop (the in-page address is re-issued before
every byte inside the loop instead), and returning the bytes read. -/
def lsm6dso32_ln_pg_read {σ : Type} (ctx : Ctx σ) (s : σ) (address : Nat)
    (len : Nat) : R3 σ :=
  let msb := address / 256 % 16
  let lsb := address % 256
  let r0 := lsm6dso32_mem_bank_set ctx s LSM6DSO32_EMBEDDED_FUNC_BANK
  if r0.ret ≠ 0 then ⟨r0.s, r0.ret, []⟩ else
  let r1 := ctx.read_reg r0.s LSM6DSO32_PAGE_RW
  let r2 := ctx.write_reg r1.s LSM6DSO32_PAGE_RW 1 r1.v2
  if r1.ret + r2.ret ≠ 0 then
    let re := pg_exit ctx r2.s (r1.ret + r2.ret)
    ⟨re.s, re.ret, []⟩ else
  let r3 := ctx.read_reg r2.s LSM6DSO32_PAGE_SEL
  let r4 := ctx.write_reg r3.s LSM6DSO32_PAGE_SEL (msb % 16) 1
  if r3.ret + r4.ret ≠ 0 then
    let re := pg_exit ctx r4.s (r3.ret + r4.ret)
    ⟨re.s, re.ret, []⟩ else
  let rl := ln_pg_read_loop ctx r4.s len msb lsb
  if rl.ret ≠ 0 then
    let re := pg_exit ctx rl.s rl.ret
    ⟨re.s, re.ret, rl.data⟩ else
  let r6 := ctx.write_reg rl.s LSM6DSO32_PAGE_SEL 0 1
  if r6.ret ≠ 0 then
    let re := pg_exit ctx r6.s r6.ret
    ⟨re.s, re.ret, rl.data⟩ else
  let r7 := ctx.read_reg r6.s LSM6DSO32_PAGE_RW
  let r8 := ctx.write_reg r7.s LSM6DSO32_PAGE_RW 0 r7.v2
  let re := pg_exit ctx r8.s (r7.ret + r8.ret)
  ⟨re.s, re.ret, rl.data⟩

/-! ## The instrumented mock transport

Modelled from the spec: the spec's testable properties are stated against a
mock transport that records every register transaction, can inject failures,
and models the paged embedded-function memory as contiguous storage (linear
address page_sel * 256 + page_addr), with the device's in-page address
auto-incrementing after each PAGE_VALUE access (the spec: writes do not
re-write the offset register per byte, so the device advances it itself).
A transaction given a nonzero injected status has no effect on the device;
a read still reports the current register value alongside its status. -/

/-- Device register state at field granularity: a named field per register
(reg_access, page_rw, page_sel, page_addr) plus the remaining bits of the
byte, and the contiguous embedded-function page memory. -/
structure Dev where
  reg_access : Nat
  fca_rest : Nat
  page_rw : Nat
  prw_rest : Nat
  page_sel : Nat
  psel_rest : Nat
  page_addr : Nat
  mem : Nat → Nat

/-- One recorded register transaction: direction (w true for a write), the
register, the named field value written (0 for reads) and the status. -/
structure Tx where
  w : Bool
  reg : Reg
  val : Nat
  st : Int
deriving DecidableEq, Repr

/-- Mock transport state: the device, the transaction log, the transaction
counter and the injected status schedule (status of the n-th transaction). -/
structure MS where
  dev : Dev
  log : List Tx
  k : Nat
  faults : Nat → Int

/-- Register value as seen by a read: the named field and the rest bits. -/
def devReadVal (d : Dev) : Reg → Nat × Nat
  | LSM6DSO32_FUNC_CFG_ACCESS => (d.reg_access, d.fca_rest)
  | LSM6DSO32_PAGE_RW => (d.page_rw, d.prw_rest)
  | LSM6DSO32_PAGE_SEL => (d.page_sel, d.psel_rest)
  | LSM6DSO32_PAGE_ADDRESS => (d.page_addr, 0)
  | LSM6DSO32_PAGE_VALUE => (d.mem (d.page_sel * 256 + d.page_addr), 0)

/-- Device effect of a successful read: PAGE_VALUE auto-increments the
in-page address; other registers are unaffected. -/
def devAfterRead (d : Dev) : Reg → Dev
  | LSM6DSO32_PAGE_VALUE => { d with page_addr := (d.page_addr + 1) % 256 }
  | _ => d

/-- Device effect of a successful write of field a (with rest bits b). -/
def devWrite (d : Dev) : Reg → Nat → Nat → Dev
  | LSM6DSO32_FUNC_CFG_ACCESS, a, b => { d with reg_access := a, fca_rest := b }
  | LSM6DSO32_PAGE_RW, a, b => { d with page_rw := a, prw_rest := b }
  | LSM6DSO32_PAGE_SEL, a, b => { d with page_sel := a, psel_rest := b }
  | LSM6DSO32_PAGE_ADDRESS, a, _ => { d with page_addr := a }
  | LSM6DSO32_PAGE_VALUE, a, _ =>
      { d with
        mem := fun i => if i = d.page_sel * 256 + d.page_addr then a else d.mem i,
        page_addr := (d.page_addr + 1) % 256 }

/-- Mock read primitive: logs the transaction, applies the read side effect
only on success, reports the current value and the scheduled status. -/
def mockRead (s : MS) (r : Reg) : RRes MS :=
  let st := s.faults s.k
  let v := devReadVal s.dev r
  ⟨⟨if st = 0 then devAfterRead s.dev r else s.dev,
    s.log ++ [⟨false, r, 0, st⟩], s.k + 1, s.faults⟩, st, v.1, v.2⟩

/-- Mock write primitive: logs the transaction and applies the write only on
success. -/
def mockWrite (s : MS) (r : Reg) (a b : Nat) : WRes MS :=
  let st := s.faults s.k
  ⟨⟨if st = 0 then devWrite s.dev r a b else s.dev,
    s.log ++ [⟨true, r, a, st⟩], s.k + 1, s.faults⟩, st⟩

/-- The mock transport. -/
def mockCtx : Ctx MS := ⟨mockRead, mockWrite⟩

/-- The all-success status schedule. -/
def zeroF : Nat → Int := fun _ => 0

/-- Single injected failure: status e on transaction number kf, 0 elsewhere. -/
def oneFault (kf : Nat) (e : Int) : Nat → Int :=
  fun i => if i = kf then e else 0

/-- Fresh mock state over device d with status schedule F. -/
def ms0 (d : Dev) (F : Nat → Int) : MS := ⟨d, [], 0, F⟩

/-- A concrete device in the canonical idle state with zeroed memory. -/
def dev0 : Dev := ⟨0, 0, 0, 0, 0, 0, 0, fun _ => 0⟩

/-- A placeholder transaction used as the default of List.getD. -/
def txD : Tx := ⟨false, LSM6DSO32_FUNC_CFG_ACCESS, 0, 0⟩

/-- Decoded linear position of a uint16_t address: high nibble bits 8-11 are
the page index, the low byte the in-page offset. -/
def linOf (address : Nat) : Nat := address / 256 % 16 * 256 + address % 256

/-- Contiguous-memory update: the spec-side picture of a write burst of the
byte list bs at linear position L. -/
def writeMem (m : Nat → Nat) (L : Nat) (bs : List Nat) : Nat → Nat :=
  fun i => if L ≤ i ∧ i < L + bs.length then bs.getD (i - L) 0 else m i

/-! ## Pure transaction traces and trace predicates

These are spec-side definitions: the expected transaction stream of an
error-free call, and decidable predicates over recorded logs used to state
the claims. -/

/-- A successful write transaction of the named field value v. -/
def wrTx (r : Reg) (v : Nat) : Tx := ⟨true, r, v, 0⟩

/-- A successful read transaction. -/
def rdTx (r : Reg) : Tx := ⟨false, r, 0, 0⟩

/-- Expected error-free transaction stream of the write transfer loop. -/
def writeLoopTrace : Nat → Nat → List Nat → List Tx
  | _, _, [] => []
  | msb, lsb, b :: rest =>
    let lsb2 := (lsb + 1) % 256
    if lsb2 = 0 then
      let msb2 := (msb + 1) % 256
      wrTx LSM6DSO32_PAGE_VALUE b :: rdTx LSM6DSO32_PAGE_SEL ::
        wrTx LSM6DSO32_PAGE_SEL (msb2 % 16) :: writeLoopTrace msb2 lsb2 rest
    else wrTx LSM6DSO32_PAGE_VALUE b :: writeLoopTrace msb lsb2 rest

/-- Expected error-free transaction stream of the read transfer loop. -/
def readLoopTrace : Nat → Nat → Nat → List Tx
  | _, _, 0 => []
  | msb, lsb, n + 1 =>
    let lsb2 := (lsb + 1) % 256
    if lsb2 = 0 then
      let msb2 := (msb + 1) % 256
      wrTx LSM6DSO32_PAGE_ADDRESS lsb :: rdTx LSM6DSO32_PAGE_VALUE ::
        rdTx LSM6DSO32_PAGE_SEL :: wrTx LSM6DSO32_PAGE_SEL (msb2 % 16) ::
        readLoopTrace msb2 lsb2 n
    else wrTx LSM6DSO32_PAGE_ADDRESS lsb :: rdTx LSM6DSO32_PAGE_VALUE ::
      readLoopTrace msb lsb2 n

/-- Expected error-free transaction stream of a whole lsm6dso32_ln_pg_write
call on the byte list bs. -/
def writeCallTrace (a : Nat) (bs : List Nat) : List Tx :=
  [rdTx LSM6DSO32_FUNC_CFG_ACCESS, wrTx LSM6DSO32_FUNC_CFG_ACCESS 2,
   rdTx LSM6DSO32_PAGE_RW, wrTx LSM6DSO32_PAGE_RW 2,
   rdTx LSM6DSO32_PAGE_SEL, wrTx LSM6DSO32_PAGE_SEL (a / 256 % 16 % 16),
   wrTx LSM6DSO32_PAGE_ADDRESS (a % 256)]
  ++ writeLoopTrace (a / 256 % 16) (a % 256) bs
  ++ [wrTx LSM6DSO32_PAGE_SEL 0, rdTx LSM6DSO32_PAGE_RW,
      wrTx LSM6DSO32_PAGE_RW 0, rdTx LSM6DSO32_FUNC_CFG_ACCESS,
      wrTx LSM6DSO32_FUNC_CFG_ACCESS 0]

/-- Expected error-free transaction stream of a whole lsm6dso32_ln_pg_read
call of n bytes. -/
def readCallTrace (a : Nat) (n : Nat) : List Tx :=
  [rdTx LSM6DSO32_FUNC_CFG_ACCESS, wrTx LSM6DSO32_FUNC_CFG_ACCESS 2,
   rdTx LSM6DSO32_PAGE_RW, wrTx LSM6DSO32_PAGE_RW 1,
   rdTx LSM6DSO32_PAGE_SEL, wrTx LSM6DSO32_PAGE_SEL (a / 256 % 16 % 16)]
  ++ readLoopTrace (a / 256 % 16) (a % 256) n
  ++ [wrTx LSM6DSO32_PAGE_SEL 0, rdTx LSM6DSO32_PAGE_RW,
      wrTx LSM6DSO32_PAGE_RW 0, rdTx LSM6DSO32_FUNC_CFG_ACCESS,
      wrTx LSM6DSO32_FUNC_CFG_ACCESS 0]

/-- Number of write transactions addressing register r in a log. -/
def countWr (l : List Tx) (r : Reg) : Nat :=
  (l.filter fun t => t.w && decide (t.reg = r)).length

/-- Number of transactions (either direction) addressing register r. -/
def countTo (l : List Tx) (r : Reg) : Nat :=
  (l.filter fun t => decide (t.reg = r)).length

/-- Sum of the statuses of the transactions of a log. -/
def stSum (l : List Tx) : Int := (l.map Tx.st).sum

/-- True when the log contains no byte-transfer transaction, that is no
PAGE_VALUE and no PAGE_ADDRESS transaction. -/
def burstFree (l : List Tx) : Bool :=
  l.all fun t =>
    !(decide (t.reg = LSM6DSO32_PAGE_VALUE) || decide (t.reg = LSM6DSO32_PAGE_ADDRESS))

/-- Last transaction of a log (placeholder transaction when empty). -/
def lastTx (l : List Tx) : Tx := l.getD (l.length - 1) txD

/-- True when every PAGE_ADDRESS write is immediately followed by a
PAGE_VALUE read. -/
def paThenPV : List Tx → Bool
  | [] => true
  | t :: l =>
    if t.w && decide (t.reg = LSM6DSO32_PAGE_ADDRESS) then
      (match l with
       | [] => false
       | u :: _ => !u.w && decide (u.reg = LSM6DSO32_PAGE_VALUE)) && paThenPV l
    else paThenPV l

/-- True when no PAGE_ADDRESS write occurs after a PAGE_VALUE transaction;
the first argument records whether a PAGE_VALUE transaction was seen. -/
def noPAafterPVaux : Bool → List Tx → Bool
  | _, [] => true
  | seen, t :: l =>
    if decide (t.reg = LSM6DSO32_PAGE_VALUE) then noPAafterPVaux true l
    else if t.w && decide (t.reg = LSM6DSO32_PAGE_ADDRESS) then
      !seen && noPAafterPVaux seen l
    else noPAafterPVaux seen l

/-- True when no PAGE_ADDRESS write occurs after the first PAGE_VALUE
transaction of the log. -/
def noPAafterPV (l : List Tx) : Bool := noPAafterPVaux false l

/-- Scans the transactions up to the next PAGE_VALUE transaction: the first
PAGE_SEL write found before it must carry page index p, and there must not
be a PAGE_VALUE transaction before any PAGE_SEL write. -/
def reissueBeforeNextPV (p : Nat) : List Tx → Bool
  | [] => true
  | t :: l =>
    if t.w && decide (t.reg = LSM6DSO32_PAGE_SEL) then decide (t.val = p)
    else if decide (t.reg = LSM6DSO32_PAGE_VALUE) then false
    else reissueBeforeNextPV p l

/-- The page-wrap discipline over a transaction log, tracking the page index
and in-page offset through PAGE_SEL and PAGE_ADDRESS writes and through the
auto-increment of each PAGE_VALUE transaction: whenever a byte transfer
happens at offset 255 (so the cursor wraps to 0), the page index must be
incremented by one and re-issued on the device before the next byte
transfer. -/
def wrapDiscipline : Nat → Nat → List Tx → Bool
  | _, _, [] => true
  | page, off, t :: l =>
    if decide (t.reg = LSM6DSO32_PAGE_VALUE) then
      if off = 255 then
        reissueBeforeNextPV ((page + 1) % 16) l && wrapDiscipline ((page + 1) % 16) 0 l
      else wrapDiscipline page ((off + 1) % 256) l
    else if t.w && decide (t.reg = LSM6DSO32_PAGE_ADDRESS) then
      wrapDiscipline page t.val l
    else if t.w && decide (t.reg = LSM6DSO32_PAGE_SEL) then
      wrapDiscipline t.val off l
    else wrapDiscipline page off l

/-- The tail of lsm6dso32_ln_pg_write over the mock transport, from the
transfer loop onward: the loop, the page-selector reset, the read-modify-write
clearing the enable bits, and the bank restore.  Factoring the tail lets the
single-fault analysis reason about it for an arbitrary entry state. -/
def pg_write_tail (s : MS) (bs : List Nat) (msb lsb : Nat) : WRes MS :=
  let rl := ln_pg_write_loop mockCtx s bs msb lsb
  if rl.ret ≠ 0 then pg_exit mockCtx rl.s rl.ret else
  let r6 := mockWrite rl.s LSM6DSO32_PAGE_SEL 0 1
  if r6.ret ≠ 0 then pg_exit mockCtx r6.s r6.ret else
  let r7 := mockRead r6.s LSM6DSO32_PAGE_RW
  let r8 := mockWrite r7.s LSM6DSO32_PAGE_RW 0 r7.v2
  pg_exit mockCtx r8.s (r7.ret + r8.ret)

/-- The tail of lsm6dso32_ln_pg_read over the mock transport, from the
transfer loop onward. -/
def pg_read_tail (s : MS) (len : Nat) (msb lsb : Nat) : R3 MS :=
  let rl := ln_pg_read_loop mockCtx s len msb lsb
  if rl.ret ≠ 0 then
    let re := pg_exit mockCtx rl.s rl.ret
    ⟨re.s, re.ret, rl.data⟩ else
  let r6 := mockWrite rl.s LSM6DSO32_PAGE_SEL 0 1
  if r6.ret ≠ 0 then
    let re := pg_exit mockCtx r6.s r6.ret
    ⟨re.s, re.ret, rl.data⟩ else
  let r7 := mockRead r6.s LSM6DSO32_PAGE_RW
  let r8 := mockWrite r7.s LSM6DSO32_PAGE_RW 0 r7.v2
  let re := pg_exit mockCtx r8.s (r7.ret + r8.ret)
  ⟨re.s, re.ret, rl.data⟩

@[simp] lemma ctx_read_eq (s : MS) (r : Reg) : mockCtx.read_reg s r = mockRead s r := rfl

@[simp] lemma ctx_write_eq (s : MS) (r : Reg) (a b : Nat) :
    mockCtx.write_reg s r a b = mockWrite s r a b := rfl

lemma writeMem_cons (m : Nat → Nat) (L : Nat) (b : Nat) (rest : List Nat) (i : Nat) :
    writeMem (fun j => if j = L then b else m j) (L + 1) rest i =
      writeMem m L (b :: rest) i := by
  simp only [writeMem, List.length_cons]
  by_cases h1 : L + 1 ≤ i ∧ i < L + 1 + rest.length
  · have h2 : L ≤ i ∧ i < L + (rest.length + 1) := by omega
    simp only [h1, h2, if_true]
    have h3 : i - L = (i - (L + 1)) + 1 := by omega
    rw [h3]
    simp [List.getD_cons_succ]
  · by_cases h4 : i = L
    · subst h4
      have h5 : i ≤ i ∧ i < i + (rest.length + 1) := by omega
      simp [h1, h5, Nat.sub_self]
    · have h6 : ¬ (L ≤ i ∧ i < L + (rest.length + 1)) := by omega
      simp [h1, h6, h4]

lemma writeMem_nil (m : Nat → Nat) (L i : Nat) : writeMem m L [] i = m i := by
  unfold writeMem
  rw [if_neg (by simp)]

lemma writeMem_single (m : Nat → Nat) (L b i : Nat) :
    writeMem m L [b] i = if i = L then b else m i := by
  unfold writeMem
  by_cases hi : i = L
  · subst hi
    rw [if_pos (by simp), if_pos rfl]
    simp
  · rw [if_neg (by simp; omega), if_neg hi]

lemma wstep_nowrap (s : MS) (b : Nat) (rest : List Nat) (msb lsb : Nat)
    (hF : s.faults = zeroF) (h2 : ¬ (lsb + 1) % 256 = 0) :
    ln_pg_write_loop mockCtx s (b :: rest) msb lsb =
      ln_pg_write_loop mockCtx
        ⟨devWrite s.dev LSM6DSO32_PAGE_VALUE b 0,
          s.log ++ [wrTx LSM6DSO32_PAGE_VALUE b], s.k + 1, s.faults⟩
        rest msb ((lsb + 1) % 256) := by
  simp only [ln_pg_write_loop]
  simp only [ctx_read_eq, ctx_write_eq]
  simp only [mockRead, mockWrite, hF, zeroF]
  simp only [h2, if_true, ite_true]
  simp [wrTx]

lemma wstep_wrap (s : MS) (b : Nat) (rest : List Nat) (msb lsb : Nat)
    (hF : s.faults = zeroF) (h2 : (lsb + 1) % 256 = 0) :
    ln_pg_write_loop mockCtx s (b :: rest) msb lsb =
      ln_pg_write_loop mockCtx
        ⟨devWrite (devWrite s.dev LSM6DSO32_PAGE_VALUE b 0) LSM6DSO32_PAGE_SEL
            ((msb + 1) % 256 % 16) 1,
          s.log ++ [wrTx LSM6DSO32_PAGE_VALUE b, rdTx LSM6DSO32_PAGE_SEL,
            wrTx LSM6DSO32_PAGE_SEL ((msb + 1) % 256 % 16)],
          s.k + 1 + 1 + 1, s.faults⟩
        rest ((msb + 1) % 256) ((lsb + 1) % 256) := by
  simp only [ln_pg_write_loop]
  simp only [ctx_read_eq, ctx_write_eq]
  simp only [mockRead, mockWrite, hF, zeroF]
  simp only [h2, if_true, ite_true]
  simp [devAfterRead, wrTx, rdTx]

lemma write_loop_zero (bs : List Nat) : ∀ (s : MS) (msb lsb : Nat), s.faults = zeroF →
    (ln_pg_write_loop mockCtx s bs msb lsb).ret = 0 ∧
    (ln_pg_write_loop mockCtx s bs msb lsb).s.faults = zeroF ∧
    (ln_pg_write_loop mockCtx s bs msb lsb).s.log = s.log ++ writeLoopTrace msb lsb bs := by
  induction bs with
  | nil =>
    intro s msb lsb hF
    simp [ln_pg_write_loop, writeLoopTrace, hF]
  | cons b rest ih =>
    intro s msb lsb hF
    by_cases h2 : (lsb + 1) % 256 = 0
    · rw [wstep_wrap s b rest msb lsb hF h2]
      obtain ⟨ha, hb, hc⟩ := ih
        ⟨devWrite (devWrite s.dev LSM6DSO32_PAGE_VALUE b 0) LSM6DSO32_PAGE_SEL
            ((msb + 1) % 256 % 16) 1,
          s.log ++ [wrTx LSM6DSO32_PAGE_VALUE b, rdTx LSM6DSO32_PAGE_SEL,
            wrTx LSM6DSO32_PAGE_SEL ((msb + 1) % 256 % 16)],
          s.k + 1 + 1 + 1, s.faults⟩ ((msb + 1) % 256) ((lsb + 1) % 256) hF
      refine ⟨ha, hb, ?_⟩
      rw [hc]
      simp only [writeLoopTrace, h2, if_true, ite_true]
      simp [List.append_assoc]
    · rw [wstep_nowrap s b rest msb lsb hF h2]
      obtain ⟨ha, hb, hc⟩ := ih
        ⟨devWrite s.dev LSM6DSO32_PAGE_VALUE b 0,
          s.log ++ [wrTx LSM6DSO32_PAGE_VALUE b], s.k + 1, s.faults⟩
        msb ((lsb + 1) % 256) hF
      refine ⟨ha, hb, ?_⟩
      rw [hc]
      simp only [writeLoopTrace, h2, if_false, ite_false]
      simp [List.append_assoc]

lemma write_loop_zero_mem (bs : List Nat) : ∀ (s : MS) (msb lsb : Nat),
    s.faults = zeroF → s.dev.page_sel = msb % 16 → s.dev.page_addr = lsb →
    lsb < 256 → msb % 16 * 256 + lsb + bs.length ≤ 4096 →
    ∀ i, (ln_pg_write_loop mockCtx s bs msb lsb).s.dev.mem i =
      writeMem s.dev.mem (msb % 16 * 256 + lsb) bs i := by
  induction bs with
  | nil =>
    intro s msb lsb hF hp ho hlt hb i
    rw [ln_pg_write_loop.eq_1]
    unfold writeMem
    rw [List.length_nil]
    rw [if_neg (by omega)]
  | cons b rest ih =>
    intro s msb lsb hF hp ho hlt hb i
    simp only [List.length_cons] at hb
    by_cases h2 : (lsb + 1) % 256 = 0
    · have hl255 : lsb = 255 := by omega
      rw [wstep_wrap s b rest msb lsb hF h2]
      have hmem := ih
        ⟨devWrite (devWrite s.dev LSM6DSO32_PAGE_VALUE b 0) LSM6DSO32_PAGE_SEL
            ((msb + 1) % 256 % 16) 1,
          s.log ++ [wrTx LSM6DSO32_PAGE_VALUE b, rdTx LSM6DSO32_PAGE_SEL,
            wrTx LSM6DSO32_PAGE_SEL ((msb + 1) % 256 % 16)],
          s.k + 1 + 1 + 1, s.faults⟩ ((msb + 1) % 256) ((lsb + 1) % 256) hF
        (by simp [devWrite]) (by simp [devWrite, ho, hl255, h2])
        (by omega)
        (by
          rcases rest with _ | ⟨c, cs⟩ <;>
            simp only [List.length_nil, List.length_cons] at hb ⊢ <;> omega) i
      rw [hmem]
      simp only [devWrite]
      rcases rest with _ | ⟨c, cs⟩
      · subst hl255
        simp only [writeMem_nil, writeMem_single, hp, ho]
      · have h16 : msb % 16 < 16 := Nat.mod_lt _ (by omega)
        have hmsb : msb % 16 < 15 := by
          simp only [List.length_cons] at hb
          subst hl255; omega
        have hL : (msb + 1) % 256 % 16 * 256 + (lsb + 1) % 256 = msb % 16 * 256 + lsb + 1 := by
          subst hl255; omega
        rw [hL, hp, ho]
        exact writeMem_cons _ _ _ _ _
    · have hlt2 : lsb + 1 < 256 := by omega
      rw [wstep_nowrap s b rest msb lsb hF h2]
      have hmem := ih
        ⟨devWrite s.dev LSM6DSO32_PAGE_VALUE b 0,
          s.log ++ [wrTx LSM6DSO32_PAGE_VALUE b], s.k + 1, s.faults⟩
        msb ((lsb + 1) % 256) hF
        (by simp [devWrite, hp]) (by simp [devWrite, ho])
        (by omega)
        (by omega) i
      rw [hmem]
      simp only [devWrite]
      have hL : msb % 16 * 256 + (lsb + 1) % 256 = msb % 16 * 256 + lsb + 1 := by omega
      rw [hL, hp, ho]
      exact writeMem_cons _ _ _ _ _

lemma rstep_nowrap (s : MS) (n : Nat) (msb lsb : Nat)
    (hF : s.faults = zeroF) (h2 : ¬ (lsb + 1) % 256 = 0) :
    ln_pg_read_loop mockCtx s (n + 1) msb lsb =
      let rr := ln_pg_read_loop mockCtx
        ⟨devAfterRead (devWrite s.dev LSM6DSO32_PAGE_ADDRESS lsb 0) LSM6DSO32_PAGE_VALUE,
          s.log ++ [wrTx LSM6DSO32_PAGE_ADDRESS lsb, rdTx LSM6DSO32_PAGE_VALUE],
          s.k + 1 + 1, s.faults⟩ n msb ((lsb + 1) % 256)
      ⟨rr.s, rr.ret,
        (devWrite s.dev LSM6DSO32_PAGE_ADDRESS lsb 0).mem
            ((devWrite s.dev LSM6DSO32_PAGE_ADDRESS lsb 0).page_sel * 256 +
              (devWrite s.dev LSM6DSO32_PAGE_ADDRESS lsb 0).page_addr) :: rr.data⟩ := by
  simp only [ln_pg_read_loop]
  simp only [ctx_read_eq, ctx_write_eq]
  simp only [mockRead, mockWrite, hF, zeroF, devReadVal]
  simp only [h2, if_true, ite_true]
  simp [wrTx, rdTx]

lemma rstep_wrap (s : MS) (n : Nat) (msb lsb : Nat)
    (hF : s.faults = zeroF) (h2 : (lsb + 1) % 256 = 0) :
    ln_pg_read_loop mockCtx s (n + 1) msb lsb =
      let rr := ln_pg_read_loop mockCtx
        ⟨devWrite (devAfterRead (devWrite s.dev LSM6DSO32_PAGE_ADDRESS lsb 0) LSM6DSO32_PAGE_VALUE)
            LSM6DSO32_PAGE_SEL ((msb + 1) % 256 % 16) 1,
          s.log ++ [wrTx LSM6DSO32_PAGE_ADDRESS lsb, rdTx LSM6DSO32_PAGE_VALUE,
            rdTx LSM6DSO32_PAGE_SEL, wrTx LSM6DSO32_PAGE_SEL ((msb + 1) % 256 % 16)],
          s.k + 1 + 1 + 1 + 1, s.faults⟩ n ((msb + 1) % 256) ((lsb + 1) % 256)
      ⟨rr.s, rr.ret,
        (devWrite s.dev LSM6DSO32_PAGE_ADDRESS lsb 0).mem
            ((devWrite s.dev LSM6DSO32_PAGE_ADDRESS lsb 0).page_sel * 256 +
              (devWrite s.dev LSM6DSO32_PAGE_ADDRESS lsb 0).page_addr) :: rr.data⟩ := by
  simp only [ln_pg_read_loop]
  simp only [ctx_read_eq, ctx_write_eq]
  simp only [mockRead, mockWrite, hF, zeroF, devReadVal]
  simp only [h2, if_true, ite_true]
  simp [wrTx, rdTx, devAfterRead]

lemma read_loop_zero (n : Nat) : ∀ (s : MS) (msb lsb : Nat), s.faults = zeroF →
    (ln_pg_read_loop mockCtx s n msb lsb).ret = 0 ∧
    (ln_pg_read_loop mockCtx s n msb lsb).s.faults = zeroF ∧
    (ln_pg_read_loop mockCtx s n msb lsb).s.log = s.log ++ readLoopTrace msb lsb n := by
  induction n with
  | zero =>
    intro s msb lsb hF
    rw [ln_pg_read_loop.eq_1]
    simp [readLoopTrace, hF]
  | succ n ih =>
    intro s msb lsb hF
    by_cases h2 : (lsb + 1) % 256 = 0
    · rw [rstep_wrap s n msb lsb hF h2]
      obtain ⟨ha, hb, hc⟩ := ih
        ⟨devWrite (devAfterRead (devWrite s.dev LSM6DSO32_PAGE_ADDRESS lsb 0) LSM6DSO32_PAGE_VALUE)
            LSM6DSO32_PAGE_SEL ((msb + 1) % 256 % 16) 1,
          s.log ++ [wrTx LSM6DSO32_PAGE_ADDRESS lsb, rdTx LSM6DSO32_PAGE_VALUE,
            rdTx LSM6DSO32_PAGE_SEL, wrTx LSM6DSO32_PAGE_SEL ((msb + 1) % 256 % 16)],
          s.k + 1 + 1 + 1 + 1, s.faults⟩ ((msb + 1) % 256) ((lsb + 1) % 256) hF
      refine ⟨by simpa using ha, by simpa using hb, ?_⟩
      simp only []
      rw [hc]
      simp only [readLoopTrace, h2, if_true, ite_true]
      simp [List.append_assoc]
    · rw [rstep_nowrap s n msb lsb hF h2]
      obtain ⟨ha, hb, hc⟩ := ih
        ⟨devAfterRead (devWrite s.dev LSM6DSO32_PAGE_ADDRESS lsb 0) LSM6DSO32_PAGE_VALUE,
          s.log ++ [wrTx LSM6DSO32_PAGE_ADDRESS lsb, rdTx LSM6DSO32_PAGE_VALUE],
          s.k + 1 + 1, s.faults⟩ msb ((lsb + 1) % 256) hF
      refine ⟨by simpa using ha, by simpa using hb, ?_⟩
      simp only []
      rw [hc]
      simp only [readLoopTrace, h2, if_false, ite_false]
      simp [List.append_assoc]

set_option maxRecDepth 8000 in
lemma read_loop_zero_data (n : Nat) : ∀ (s : MS) (msb lsb : Nat), s.faults = zeroF →
    s.dev.page_sel = msb % 16 → lsb < 256 → msb % 16 * 256 + lsb + n ≤ 4096 →
    (∀ i, (ln_pg_read_loop mockCtx s n msb lsb).s.dev.mem i = s.dev.mem i) ∧
    (ln_pg_read_loop mockCtx s n msb lsb).data =
      (List.range n).map (fun j => s.dev.mem (msb % 16 * 256 + lsb + j)) := by
  induction n with
  | zero =>
    intro s msb lsb hF hp hlt hb
    rw [ln_pg_read_loop.eq_1]
    simp
  | succ n ih =>
    intro s msb lsb hF hp hlt hb
    by_cases h2 : (lsb + 1) % 256 = 0
    · have hl255 : lsb = 255 := by omega
      rw [rstep_wrap s n msb lsb hF h2]
      obtain ⟨hmem, hdata⟩ := ih
        ⟨devWrite (devAfterRead (devWrite s.dev LSM6DSO32_PAGE_ADDRESS lsb 0) LSM6DSO32_PAGE_VALUE)
            LSM6DSO32_PAGE_SEL ((msb + 1) % 256 % 16) 1,
          s.log ++ [wrTx LSM6DSO32_PAGE_ADDRESS lsb, rdTx LSM6DSO32_PAGE_VALUE,
            rdTx LSM6DSO32_PAGE_SEL, wrTx LSM6DSO32_PAGE_SEL ((msb + 1) % 256 % 16)],
          s.k + 1 + 1 + 1 + 1, s.faults⟩ ((msb + 1) % 256) ((lsb + 1) % 256) hF
        (by simp [devWrite, devAfterRead])
        (by omega)
        (by rcases Nat.eq_zero_or_pos n with hn | hn <;> omega)
      constructor
      · intro i
        simp only []
        rw [hmem i]
        simp [devWrite, devAfterRead]
      · simp only []
        rw [hdata]
        simp only [devWrite, devAfterRead]
        rw [List.range_succ_eq_map, List.map_cons, List.map_map]
        simp only [List.cons.injEq]
        refine ⟨?_, ?_⟩
        · rw [hp, Nat.add_zero]
        · rcases Nat.eq_zero_or_pos n with hn | hn
          · subst hn
            simp
          · have h16 : msb % 16 < 16 := Nat.mod_lt _ (by omega)
            have hmsb : msb % 16 < 15 := by omega
            apply List.map_congr_left
            intro a _
            simp only [Function.comp]
            congr 1
            omega
    · have hlt2 : lsb + 1 < 256 := by omega
      rw [rstep_nowrap s n msb lsb hF h2]
      obtain ⟨hmem, hdata⟩ := ih
        ⟨devAfterRead (devWrite s.dev LSM6DSO32_PAGE_ADDRESS lsb 0) LSM6DSO32_PAGE_VALUE,
          s.log ++ [wrTx LSM6DSO32_PAGE_ADDRESS lsb, rdTx LSM6DSO32_PAGE_VALUE],
          s.k + 1 + 1, s.faults⟩ msb ((lsb + 1) % 256) hF
        (by simp [devWrite, devAfterRead, hp])
        (by omega)
        (by omega)
      constructor
      · intro i
        simp only []
        rw [hmem i]
        simp [devWrite, devAfterRead]
      · simp only []
        rw [hdata]
        simp only [devWrite, devAfterRead]
        rw [List.range_succ_eq_map, List.map_cons, List.map_map]
        simp only [List.cons.injEq]
        refine ⟨?_, ?_⟩
        · rw [hp, Nat.add_zero]
        · apply List.map_congr_left
          intro a _
          simp only [Function.comp]
          congr 1
          omega

lemma mbs_zero (s : MS) (v : Nat) (hF : s.faults = zeroF) :
    lsm6dso32_mem_bank_set mockCtx s v =
      ⟨⟨devWrite s.dev LSM6DSO32_FUNC_CFG_ACCESS v s.dev.fca_rest,
        s.log ++ [rdTx LSM6DSO32_FUNC_CFG_ACCESS, wrTx LSM6DSO32_FUNC_CFG_ACCESS v],
        s.k + 1 + 1, s.faults⟩, 0⟩ := by
  simp only [lsm6dso32_mem_bank_set]
  simp only [ctx_read_eq, ctx_write_eq]
  simp only [mockRead, mockWrite, hF, zeroF, devReadVal, devAfterRead]
  simp [wrTx, rdTx]

lemma pg_exit_zero (s : MS) (ret : Int) (hF : s.faults = zeroF) :
    pg_exit mockCtx s ret =
      ⟨⟨devWrite s.dev LSM6DSO32_FUNC_CFG_ACCESS LSM6DSO32_USER_BANK s.dev.fca_rest,
        s.log ++ [rdTx LSM6DSO32_FUNC_CFG_ACCESS, wrTx LSM6DSO32_FUNC_CFG_ACCESS LSM6DSO32_USER_BANK],
        s.k + 1 + 1, s.faults⟩, ret⟩ := by
  simp only [pg_exit]
  rw [mbs_zero s _ hF]
  simp

@[simp] lemma zeroF_app (n : Nat) : zeroF n = 0 := rfl

lemma wloop_ret (bs : List Nat) (s : MS) (msb lsb : Nat) (hF : s.faults = zeroF) :
    (ln_pg_write_loop mockCtx s bs msb lsb).ret = 0 :=
  (write_loop_zero bs s msb lsb hF).1

lemma wloop_faults (bs : List Nat) (s : MS) (msb lsb : Nat) (hF : s.faults = zeroF) :
    (ln_pg_write_loop mockCtx s bs msb lsb).s.faults = zeroF :=
  (write_loop_zero bs s msb lsb hF).2.1

lemma wloop_log (bs : List Nat) (s : MS) (msb lsb : Nat) (hF : s.faults = zeroF) :
    (ln_pg_write_loop mockCtx s bs msb lsb).s.log = s.log ++ writeLoopTrace msb lsb bs :=
  (write_loop_zero bs s msb lsb hF).2.2

lemma rloop_ret (n : Nat) (s : MS) (msb lsb : Nat) (hF : s.faults = zeroF) :
    (ln_pg_read_loop mockCtx s n msb lsb).ret = 0 :=
  (read_loop_zero n s msb lsb hF).1

lemma rloop_faults (n : Nat) (s : MS) (msb lsb : Nat) (hF : s.faults = zeroF) :
    (ln_pg_read_loop mockCtx s n msb lsb).s.faults = zeroF :=
  (read_loop_zero n s msb lsb hF).2.1

lemma rloop_log (n : Nat) (s : MS) (msb lsb : Nat) (hF : s.faults = zeroF) :
    (ln_pg_read_loop mockCtx s n msb lsb).s.log = s.log ++ readLoopTrace msb lsb n :=
  (read_loop_zero n s msb lsb hF).2.2

lemma write_call_zero (s : MS) (a : Nat) (buf : List Nat) (len : Nat)
    (hF : s.faults = zeroF) :
    (lsm6dso32_ln_pg_write mockCtx s a buf len).ret = 0 ∧
    (lsm6dso32_ln_pg_write mockCtx s a buf len).s.faults = zeroF ∧
    (lsm6dso32_ln_pg_write mockCtx s a buf len).s.log =
      s.log ++ writeCallTrace a ((List.range len).map fun i => buf.getD i 0) ∧
    (lsm6dso32_ln_pg_write mockCtx s a buf len).s.dev.reg_access = LSM6DSO32_USER_BANK ∧
    (lsm6dso32_ln_pg_write mockCtx s a buf len).s.dev.page_rw = 0 ∧
    (lsm6dso32_ln_pg_write mockCtx s a buf len).s.dev.page_sel = 0 := by
  simp only [lsm6dso32_ln_pg_write]
  rw [mbs_zero s _ hF]
  simp only [ctx_read_eq, ctx_write_eq]
  simp only [mockRead, mockWrite, hF, zeroF, devReadVal, devAfterRead]
  norm_num
  simp only [wloop_ret, wloop_faults, wloop_log]
  norm_num
  rw [pg_exit_zero _ _ (by simp [wloop_faults])]
  have h1616 : a / 256 % 16 % 16 = a / 256 % 16 := by omega
  simp [writeCallTrace, wrTx, rdTx, devWrite, List.append_assoc, h1616, LSM6DSO32_USER_BANK,
    wloop_faults, wloop_log, LSM6DSO32_EMBEDDED_FUNC_BANK]

lemma read_call_zero (s : MS) (a : Nat) (len : Nat) (hF : s.faults = zeroF) :
    (lsm6dso32_ln_pg_read mockCtx s a len).ret = 0 ∧
    (lsm6dso32_ln_pg_read mockCtx s a len).s.faults = zeroF ∧
    (lsm6dso32_ln_pg_read mockCtx s a len).s.log = s.log ++ readCallTrace a len ∧
    (lsm6dso32_ln_pg_read mockCtx s a len).s.dev.reg_access = LSM6DSO32_USER_BANK ∧
    (lsm6dso32_ln_pg_read mockCtx s a len).s.dev.page_rw = 0 ∧
    (lsm6dso32_ln_pg_read mockCtx s a len).s.dev.page_sel = 0 := by
  simp only [lsm6dso32_ln_pg_read]
  rw [mbs_zero s _ hF]
  simp only [ctx_read_eq, ctx_write_eq]
  simp only [mockRead, mockWrite, hF, zeroF, devReadVal, devAfterRead]
  norm_num
  simp only [rloop_ret, rloop_faults, rloop_log]
  norm_num
  rw [pg_exit_zero _ _ (by simp [rloop_faults])]
  have h1616 : a / 256 % 16 % 16 = a / 256 % 16 := by omega
  simp [readCallTrace, wrTx, rdTx, devWrite, List.append_assoc, h1616, LSM6DSO32_USER_BANK,
    rloop_faults, rloop_log, LSM6DSO32_EMBEDDED_FUNC_BANK]

set_option maxRecDepth 8000 in
lemma write_call_zero_mem (s : MS) (a : Nat) (buf : List Nat) (len : Nat)
    (hF : s.faults = zeroF) (hb : linOf a + len ≤ 4096) (i : Nat) :
    (lsm6dso32_ln_pg_write mockCtx s a buf len).s.dev.mem i =
      writeMem s.dev.mem (linOf a) ((List.range len).map fun j => buf.getD j 0) i := by
  simp only [linOf] at hb
  simp only [lsm6dso32_ln_pg_write]
  rw [mbs_zero s _ hF]
  simp only [ctx_read_eq, ctx_write_eq]
  simp only [mockRead, mockWrite, hF, zeroF, devReadVal, devAfterRead]
  norm_num
  simp only [wloop_ret, wloop_faults, wloop_log]
  norm_num
  rw [pg_exit_zero _ _ (by simp [wloop_faults])]
  simp only [devWrite]
  rw [write_loop_zero_mem _ _ _ _ ?hf ?hp ?ho ?hl ?hlen]
  case hf => rfl
  case hp => dsimp only; omega
  case ho => rfl
  case hl => omega
  case hlen =>
    dsimp only
    simp only [List.length_map, List.length_range]
    omega
  dsimp only
  simp only [linOf]
  congr 1
  omega

set_option maxRecDepth 8000 in
lemma read_call_zero_data (s : MS) (a : Nat) (len : Nat)
    (hF : s.faults = zeroF) (hb : linOf a + len ≤ 4096) :
    (lsm6dso32_ln_pg_read mockCtx s a len).data =
      (List.range len).map (fun j => s.dev.mem (linOf a + j)) := by
  simp only [linOf] at hb
  simp only [lsm6dso32_ln_pg_read]
  rw [mbs_zero s _ hF]
  simp only [ctx_read_eq, ctx_write_eq]
  simp only [mockRead, mockWrite, hF, zeroF, devReadVal, devAfterRead]
  norm_num
  simp only [rloop_ret, rloop_faults, rloop_log]
  norm_num
  simp only [devWrite]
  rw [(read_loop_zero_data len _ _ _ ?hf ?hp ?hl ?hb2).2]
  case hf => rfl
  case hp => dsimp only; omega
  case hl => omega
  case hb2 => dsimp only; omega
  dsimp only
  simp only [linOf]
  apply List.map_congr_left
  intro j _
  congr 1
  omega

lemma getD_range_self (l : List Nat) :
    (List.range l.length).map (fun i => l.getD i 0) = l := by
  induction l with
  | nil => simp
  | cons x xs ih =>
    rw [List.length_cons, List.range_succ_eq_map, List.map_cons, List.map_map]
    simp only [List.getD_cons_zero, List.cons.injEq]
    refine ⟨trivial, ?_⟩
    have hstep : List.map ((fun i => (x :: xs).getD i 0) ∘ Nat.succ) (List.range xs.length)
        = List.map (fun i => xs.getD i 0) (List.range xs.length) := by
      apply List.map_congr_left
      intro a _
      simp [Function.comp, List.getD_cons_succ]
    rw [hstep, ih]

lemma writeMem_getD (m : Nat → Nat) (L : Nat) (bs : List Nat) (j : Nat)
    (h : j < bs.length) : writeMem m L bs (L + j) = bs.getD j 0 := by
  unfold writeMem
  rw [if_pos (by omega)]
  congr 1
  omega

/-- Claim C2: against the contiguous-memory mock transport, a write burst at
linear address a followed by a read burst of the same length returns exactly
the bytes written, for every address and every length that fits the uint8_t
len parameter and the 4096-byte embedded page space, in particular whenever
the range crosses a page boundary. -/
theorem C2_write_read_round_trip (d : Dev) (a : Nat) (data : List Nat)
    (h255 : data.length ≤ 255) (hcross : 256 < a % 256 + data.length)
    (hbound : linOf a + data.length ≤ 4096) :
    (lsm6dso32_ln_pg_read mockCtx
        (lsm6dso32_ln_pg_write mockCtx (ms0 d zeroF) a data data.length).s
        a data.length).data = data := by
  have hbytes : (List.range data.length).map (fun i => data.getD i 0) = data :=
    getD_range_self data
  have wz := write_call_zero (ms0 d zeroF) a data data.length rfl
  rw [read_call_zero_data _ a data.length wz.2.1 hbound]
  have step : ∀ j ∈ List.range data.length,
      (lsm6dso32_ln_pg_write mockCtx (ms0 d zeroF) a data data.length).s.dev.mem
        (linOf a + j) = data.getD j 0 := by
    intro j hj
    rw [List.mem_range] at hj
    rw [write_call_zero_mem (ms0 d zeroF) a data data.length rfl hbound]
    show writeMem d.mem (linOf a) ((List.range data.length).map fun j => data.getD j 0)
        (linOf a + j) = data.getD j 0
    rw [hbytes]
    exact writeMem_getD d.mem (linOf a) data j hj
  rw [List.map_congr_left step]
  exact hbytes

lemma countWr_append (A B : List Tx) (r : Reg) :
    countWr (A ++ B) r = countWr A r + countWr B r := by
  simp [countWr, List.filter_append]

lemma countTo_append (A B : List Tx) (r : Reg) :
    countTo (A ++ B) r = countTo A r + countTo B r := by
  simp [countTo, List.filter_append]

lemma writeLoopTrace_mem : ∀ (bs : List Nat) (msb lsb : Nat) (t : Tx),
    t ∈ writeLoopTrace msb lsb bs →
    t.reg = LSM6DSO32_PAGE_VALUE ∨ t.reg = LSM6DSO32_PAGE_SEL := by
  intro bs
  induction bs with
  | nil =>
    intro msb lsb t ht
    simp [writeLoopTrace] at ht
  | cons b rest ih =>
    intro msb lsb t ht
    by_cases h2 : (lsb + 1) % 256 = 0
    · simp only [writeLoopTrace, h2, if_true, ite_true, List.mem_cons] at ht
      rcases ht with rfl | rfl | rfl | ht
      · left; rfl
      · right; rfl
      · right; rfl
      · exact ih _ _ t ht
    · simp only [writeLoopTrace, h2, if_false, ite_false, List.mem_cons] at ht
      rcases ht with rfl | ht
      · left; rfl
      · exact ih _ _ t ht

lemma readLoopTrace_mem : ∀ (n : Nat) (msb lsb : Nat) (t : Tx),
    t ∈ readLoopTrace msb lsb n →
    t.reg = LSM6DSO32_PAGE_VALUE ∨ t.reg = LSM6DSO32_PAGE_SEL ∨
      (t.reg = LSM6DSO32_PAGE_ADDRESS ∧ t.w = true) := by
  intro n
  induction n with
  | zero =>
    intro msb lsb t ht
    simp [readLoopTrace] at ht
  | succ n ih =>
    intro msb lsb t ht
    by_cases h2 : (lsb + 1) % 256 = 0
    · simp only [readLoopTrace, h2, if_true, ite_true, List.mem_cons] at ht
      rcases ht with rfl | rfl | rfl | rfl | ht
      · right; right; exact ⟨rfl, rfl⟩
      · left; rfl
      · right; left; rfl
      · right; left; rfl
      · exact ih _ _ t ht
    · simp only [readLoopTrace, h2, if_false, ite_false, List.mem_cons] at ht
      rcases ht with rfl | rfl | ht
      · right; right; exact ⟨rfl, rfl⟩
      · left; rfl
      · exact ih _ _ t ht

lemma countWr_writeLoopTrace_paddr (bs : List Nat) (msb lsb : Nat) :
    countWr (writeLoopTrace msb lsb bs) LSM6DSO32_PAGE_ADDRESS = 0 := by
  simp only [countWr, List.length_eq_zero]
  rw [List.filter_eq_nil]
  intro t ht
  rcases writeLoopTrace_mem bs msb lsb t ht with h | h <;> simp [h]

lemma countWr_readLoopTrace_paddr : ∀ (n : Nat) (msb lsb : Nat),
    countWr (readLoopTrace msb lsb n) LSM6DSO32_PAGE_ADDRESS = n := by
  intro n
  induction n with
  | zero => intro msb lsb; simp [readLoopTrace, countWr]
  | succ n ih =>
    intro msb lsb
    by_cases h2 : (lsb + 1) % 256 = 0
    · simp only [readLoopTrace, h2, if_true, ite_true]
      simp [countWr, wrTx, rdTx, List.filter_cons] at ih ⊢
      rw [ih]
    · simp only [readLoopTrace, h2, if_false, ite_false]
      simp [countWr, wrTx, rdTx, List.filter_cons] at ih ⊢
      rw [ih]

lemma noPAafterPVaux_writeLoop : ∀ (bs : List Nat) (msb lsb : Nat) (b0 : Bool)
    (rest0 : List Tx), (∀ b', noPAafterPVaux b' rest0 = true) →
    noPAafterPVaux b0 (writeLoopTrace msb lsb bs ++ rest0) = true := by
  intro bs
  induction bs with
  | nil =>
    intro msb lsb b0 rest0 h
    simp only [writeLoopTrace, List.nil_append]
    exact h b0
  | cons b rest ih =>
    intro msb lsb b0 rest0 h
    by_cases h2 : (lsb + 1) % 256 = 0
    · simp only [writeLoopTrace, h2, if_true, ite_true, List.cons_append]
      simp only [noPAafterPVaux, wrTx, rdTx]
      simp
      exact ih _ _ _ _ h
    · simp only [writeLoopTrace, h2, if_false, ite_false, List.cons_append]
      simp only [noPAafterPVaux, wrTx]
      simp
      exact ih _ _ _ _ h

lemma paThenPV_readLoop : ∀ (n : Nat) (msb lsb : Nat) (rest0 : List Tx),
    paThenPV rest0 = true →
    paThenPV (readLoopTrace msb lsb n ++ rest0) = true := by
  intro n
  induction n with
  | zero =>
    intro msb lsb rest0 h
    simpa [readLoopTrace] using h
  | succ n ih =>
    intro msb lsb rest0 h
    by_cases h2 : (lsb + 1) % 256 = 0
    · simp only [readLoopTrace, h2, if_true, ite_true, List.cons_append]
      simp only [paThenPV, wrTx, rdTx]
      simp
      exact ih _ _ _ h
    · simp only [readLoopTrace, h2, if_false, ite_false, List.cons_append]
      simp only [paThenPV, wrTx, rdTx]
      simp
      exact ih _ _ _ h

lemma countWr_writeLoopTrace_psel_zero : ∀ (bs : List Nat) (msb lsb : Nat),
    lsb + bs.length ≤ 255 →
    countWr (writeLoopTrace msb lsb bs) LSM6DSO32_PAGE_SEL = 0 := by
  intro bs
  induction bs with
  | nil => intro msb lsb h; simp [writeLoopTrace, countWr]
  | cons b rest ih =>
    intro msb lsb h
    simp only [List.length_cons] at h
    have h2 : ¬ (lsb + 1) % 256 = 0 := by omega
    simp only [writeLoopTrace, h2, if_false, ite_false]
    simp [countWr, wrTx, List.filter_cons]
    have := ih msb (lsb + 1) (by omega)
    simp [countWr] at this
    have hmod : (lsb + 1) % 256 = lsb + 1 := by omega
    rw [hmod]
    exact this

lemma countWr_writeLoopTrace_psel_le_one : ∀ (bs : List Nat) (msb lsb : Nat),
    lsb < 256 → lsb + bs.length ≤ 510 →
    countWr (writeLoopTrace msb lsb bs) LSM6DSO32_PAGE_SEL ≤ 1 := by
  intro bs
  induction bs with
  | nil => intro msb lsb h1 h2; simp [writeLoopTrace, countWr]
  | cons b rest ih =>
    intro msb lsb h1 h
    simp only [List.length_cons] at h
    by_cases h2 : (lsb + 1) % 256 = 0
    · have hl : lsb = 255 := by omega
      simp only [writeLoopTrace, h2, if_true, ite_true]
      simp [countWr, wrTx, rdTx, List.filter_cons]
      have hz := countWr_writeLoopTrace_psel_zero rest ((msb + 1) % 256) ((lsb + 1) % 256)
        (by omega)
      simp [countWr] at hz
      rw [h2] at hz
      exact hz
    · simp only [writeLoopTrace, h2, if_false, ite_false]
      simp [countWr, wrTx, List.filter_cons]
      have := ih msb ((lsb + 1) % 256) (by omega) (by omega)
      simp [countWr] at this
      exact this

lemma countWr_readLoopTrace_psel_zero : ∀ (n : Nat) (msb lsb : Nat),
    lsb + n ≤ 255 →
    countWr (readLoopTrace msb lsb n) LSM6DSO32_PAGE_SEL = 0 := by
  intro n
  induction n with
  | zero => intro msb lsb h; simp [readLoopTrace, countWr]
  | succ n ih =>
    intro msb lsb h
    have h2 : ¬ (lsb + 1) % 256 = 0 := by omega
    simp only [readLoopTrace, h2, if_false, ite_false]
    simp [countWr, wrTx, rdTx, List.filter_cons]
    have := ih msb (lsb + 1) (by omega)
    simp [countWr] at this
    have hmod : (lsb + 1) % 256 = lsb + 1 := by omega
    rw [hmod]
    exact this

lemma countWr_readLoopTrace_psel_le_one : ∀ (n : Nat) (msb lsb : Nat),
    lsb < 256 → lsb + n ≤ 510 →
    countWr (readLoopTrace msb lsb n) LSM6DSO32_PAGE_SEL ≤ 1 := by
  intro n
  induction n with
  | zero => intro msb lsb h1 h2; simp [readLoopTrace, countWr]
  | succ n ih =>
    intro msb lsb h1 h
    by_cases h2 : (lsb + 1) % 256 = 0
    · simp only [readLoopTrace, h2, if_true, ite_true]
      simp [countWr, wrTx, rdTx, List.filter_cons]
      have hz := countWr_readLoopTrace_psel_zero n ((msb + 1) % 256) ((lsb + 1) % 256)
        (by omega)
      simp [countWr] at hz
      rw [h2] at hz
      exact hz
    · simp only [readLoopTrace, h2, if_false, ite_false]
      simp [countWr, wrTx, rdTx, List.filter_cons]
      have := ih msb ((lsb + 1) % 256) (by omega) (by omega)
      simp [countWr] at this
      exact this

lemma wrapDiscipline_wloop : ∀ (bs : List Nat) (msb lsb : Nat) (rest0 : List Tx),
    lsb < 256 → (∀ p o, wrapDiscipline p o rest0 = true) →
    wrapDiscipline (msb % 16) lsb (writeLoopTrace msb lsb bs ++ rest0) = true := by
  intro bs
  induction bs with
  | nil =>
    intro msb lsb rest0 h1 h
    simpa [writeLoopTrace] using h (msb % 16) lsb
  | cons b rest ih =>
    intro msb lsb rest0 h1 h
    by_cases h2 : (lsb + 1) % 256 = 0
    · have hl : lsb = 255 := by omega
      have hmod : (msb + 1) % 256 % 16 = (msb % 16 + 1) % 16 := by omega
      subst hl
      simp only [writeLoopTrace, h2, if_true, ite_true, List.cons_append]
      simp only [wrapDiscipline, reissueBeforeNextPV, wrTx, rdTx]
      simp [hmod]
      have hthis := ih ((msb + 1) % 256) 0 rest0 (by omega) h
      have hmm : (msb + 1) % 256 % 16 = (msb + 1) % 16 := by omega
      rw [hmm] at hthis
      simpa using hthis
    · have hl : ¬ lsb = 255 := by omega
      simp only [writeLoopTrace, h2, if_false, ite_false, List.cons_append]
      simp only [wrapDiscipline, wrTx]
      simp [hl]
      have := ih msb ((lsb + 1) % 256) rest0 (by omega) h
      simpa using this

lemma wrapDiscipline_rloop : ∀ (n : Nat) (msb lsb off0 : Nat) (rest0 : List Tx),
    lsb < 256 → (∀ p o, wrapDiscipline p o rest0 = true) →
    wrapDiscipline (msb % 16) off0 (readLoopTrace msb lsb n ++ rest0) = true := by
  intro n
  induction n with
  | zero =>
    intro msb lsb off0 rest0 h1 h
    simpa [readLoopTrace] using h (msb % 16) off0
  | succ n ih =>
    intro msb lsb off0 rest0 h1 h
    by_cases h2 : (lsb + 1) % 256 = 0
    · have hl : lsb = 255 := by omega
      have hmod : (msb + 1) % 256 % 16 = (msb % 16 + 1) % 16 := by omega
      subst hl
      simp only [readLoopTrace, h2, if_true, ite_true, List.cons_append]
      simp only [wrapDiscipline, reissueBeforeNextPV, wrTx, rdTx]
      simp [hmod]
      have hthis := ih ((msb + 1) % 256) 0 0 rest0 (by omega) h
      have hmm : (msb + 1) % 256 % 16 = (msb + 1) % 16 := by omega
      rw [hmm] at hthis
      simpa using hthis
    · have hl : ¬ lsb = 255 := by omega
      simp only [readLoopTrace, h2, if_false, ite_false, List.cons_append]
      simp only [wrapDiscipline, wrTx, rdTx]
      simp [hl]
      have := ih msb ((lsb + 1) % 256) ((lsb + 1) % 256) rest0 (by omega) h
      simpa using this

lemma wrapDiscipline_cleanup (p o : Nat) :
    wrapDiscipline p o [wrTx LSM6DSO32_PAGE_SEL 0, rdTx LSM6DSO32_PAGE_RW,
      wrTx LSM6DSO32_PAGE_RW 0, rdTx LSM6DSO32_FUNC_CFG_ACCESS,
      wrTx LSM6DSO32_FUNC_CFG_ACCESS 0] = true := by
  simp [wrapDiscipline, wrTx, rdTx]

lemma noPAafterPVaux_cleanup (b : Bool) :
    noPAafterPVaux b [wrTx LSM6DSO32_PAGE_SEL 0, rdTx LSM6DSO32_PAGE_RW,
      wrTx LSM6DSO32_PAGE_RW 0, rdTx LSM6DSO32_FUNC_CFG_ACCESS,
      wrTx LSM6DSO32_FUNC_CFG_ACCESS 0] = true := by
  simp [noPAafterPVaux, wrTx, rdTx]

lemma paThenPV_cleanup :
    paThenPV [wrTx LSM6DSO32_PAGE_SEL 0, rdTx LSM6DSO32_PAGE_RW,
      wrTx LSM6DSO32_PAGE_RW 0, rdTx LSM6DSO32_FUNC_CFG_ACCESS,
      wrTx LSM6DSO32_FUNC_CFG_ACCESS 0] = true := by
  simp [paThenPV, wrTx, rdTx]

/-- Claim C1 (amended): after any lsm6dso32_ln_pg_write or lsm6dso32_ln_pg_read
call in which every register transaction succeeds, the device state observed
through the transport satisfies the canonical idle values: register bank equal
to the user bank, page selector equal to 0 and the page read/write enable bits
disabled.  (On failure paths the code only restores the bank: see the
counterexample.) -/
theorem C1_canonical_state_error_free (d : Dev) (a : Nat) (buf : List Nat)
    (len : Nat) (aR : Nat) (lenR : Nat) :
    ((lsm6dso32_ln_pg_write mockCtx (ms0 d zeroF) a buf len).s.dev.reg_access =
        LSM6DSO32_USER_BANK ∧
      (lsm6dso32_ln_pg_write mockCtx (ms0 d zeroF) a buf len).s.dev.page_sel = 0 ∧
      (lsm6dso32_ln_pg_write mockCtx (ms0 d zeroF) a buf len).s.dev.page_rw = 0) ∧
    ((lsm6dso32_ln_pg_read mockCtx (ms0 d zeroF) aR lenR).s.dev.reg_access =
        LSM6DSO32_USER_BANK ∧
      (lsm6dso32_ln_pg_read mockCtx (ms0 d zeroF) aR lenR).s.dev.page_sel = 0 ∧
      (lsm6dso32_ln_pg_read mockCtx (ms0 d zeroF) aR lenR).s.dev.page_rw = 0) := by
  obtain ⟨-, -, -, hw1, hw2, hw3⟩ := write_call_zero (ms0 d zeroF) a buf len rfl
  obtain ⟨-, -, -, hr1, hr2, hr3⟩ := read_call_zero (ms0 d zeroF) aR lenR rfl
  exact ⟨⟨hw1, hw3, hw2⟩, ⟨hr1, hr3, hr2⟩⟩

/-- Claim C1 as stated is refuted: with a failure injected at the eighth
register transaction (the PAGE_VALUE write) of a one-byte
lsm6dso32_ln_pg_write at address 0x100, the call returns a nonzero status,
the bank is restored to the user bank, but the page selector is left at 1 and
the page write enable bit is left set (2), so the device is not in the
canonical idle state on this failure path. -/
theorem C1_counterexample :
    (lsm6dso32_ln_pg_write mockCtx (ms0 dev0 (oneFault 7 (-1))) 256 [5] 1).ret ≠ 0 ∧
    (lsm6dso32_ln_pg_write mockCtx (ms0 dev0 (oneFault 7 (-1))) 256 [5] 1).s.dev.reg_access =
      LSM6DSO32_USER_BANK ∧
    (lsm6dso32_ln_pg_write mockCtx (ms0 dev0 (oneFault 7 (-1))) 256 [5] 1).s.dev.page_sel = 1 ∧
    (lsm6dso32_ln_pg_write mockCtx (ms0 dev0 (oneFault 7 (-1))) 256 [5] 1).s.dev.page_rw = 2 := by
  refine ⟨by decide, by decide, by decide, by decide⟩

/-- Claim C7 (amended): a zero-length lsm6dso32_ln_pg_write performs exactly
the 12 fixed setup and cleanup transactions (bank switch, enable set, page
select, page address, page-selector reset, enable clear, bank restore) and a
zero-length lsm6dso32_ln_pg_read exactly its 11 fixed transactions; neither
issues any PAGE_VALUE transaction, the read issues no PAGE_ADDRESS
transaction either, and the device is left at the canonical idle values.
(The calls are not limited to the bank-switch and bank-restore steps: see
the counterexample.) -/
theorem C7_zero_length_calls (d : Dev) (a : Nat) (buf : List Nat) :
    ((lsm6dso32_ln_pg_write mockCtx (ms0 d zeroF) a buf 0).s.log.length = 12 ∧
      countTo (lsm6dso32_ln_pg_write mockCtx (ms0 d zeroF) a buf 0).s.log
        LSM6DSO32_PAGE_VALUE = 0 ∧
      (lsm6dso32_ln_pg_write mockCtx (ms0 d zeroF) a buf 0).s.dev.reg_access =
        LSM6DSO32_USER_BANK ∧
      (lsm6dso32_ln_pg_write mockCtx (ms0 d zeroF) a buf 0).s.dev.page_sel = 0 ∧
      (lsm6dso32_ln_pg_write mockCtx (ms0 d zeroF) a buf 0).s.dev.page_rw = 0) ∧
    ((lsm6dso32_ln_pg_read mockCtx (ms0 d zeroF) a 0).s.log.length = 11 ∧
      countTo (lsm6dso32_ln_pg_read mockCtx (ms0 d zeroF) a 0).s.log
        LSM6DSO32_PAGE_VALUE = 0 ∧
      countTo (lsm6dso32_ln_pg_read mockCtx (ms0 d zeroF) a 0).s.log
        LSM6DSO32_PAGE_ADDRESS = 0 ∧
      (lsm6dso32_ln_pg_read mockCtx (ms0 d zeroF) a 0).s.dev.reg_access =
        LSM6DSO32_USER_BANK ∧
      (lsm6dso32_ln_pg_read mockCtx (ms0 d zeroF) a 0).s.dev.page_sel = 0 ∧
      (lsm6dso32_ln_pg_read mockCtx (ms0 d zeroF) a 0).s.dev.page_rw = 0) := by
  obtain ⟨-, -, hwl, hw1, hw2, hw3⟩ := write_call_zero (ms0 d zeroF) a buf 0 rfl
  obtain ⟨-, -, hrl, hr1, hr2, hr3⟩ := read_call_zero (ms0 d zeroF) a 0 rfl
  rw [hwl, hrl]
  refine ⟨⟨?_, ?_, hw1, hw3, hw2⟩, ⟨?_, ?_, ?_, hr1, hr3, hr2⟩⟩ <;>
    simp [ms0, writeCallTrace, readCallTrace, writeLoopTrace, readLoopTrace,
      countTo, wrTx, rdTx, List.filter_append]

/-- Claim C7 as stated is refuted: the zero-length write call does not
perform only the bank-switch and bank-restore steps; its third transaction
already addresses PAGE_RW (the enable-set read-modify-write), not the bank
selector register. -/
theorem C7_counterexample :
    (lsm6dso32_ln_pg_write mockCtx (ms0 dev0 zeroF) 0 [] 0).s.log.length = 12 ∧
    ((lsm6dso32_ln_pg_write mockCtx (ms0 dev0 zeroF) 0 [] 0).s.log.getD 2 txD).reg =
      LSM6DSO32_PAGE_RW ∧
    ((lsm6dso32_ln_pg_write mockCtx (ms0 dev0 zeroF) 0 [] 0).s.log.getD 2 txD).reg ≠
      LSM6DSO32_FUNC_CFG_ACCESS := by
  refine ⟨by decide, by decide, by decide⟩

/-- Claim C5: in an error-free burst, lsm6dso32_ln_pg_read writes the
PAGE_ADDRESS register exactly once per byte (len times), each such write
immediately followed by the PAGE_VALUE read, whereas lsm6dso32_ln_pg_write
writes PAGE_ADDRESS exactly once, before any PAGE_VALUE transaction, and
never again inside the burst. -/
theorem C5_page_address_protocol (d : Dev) (a : Nat) (buf : List Nat) (len : Nat) :
    (countWr (lsm6dso32_ln_pg_write mockCtx (ms0 d zeroF) a buf len).s.log
        LSM6DSO32_PAGE_ADDRESS = 1 ∧
      noPAafterPV (lsm6dso32_ln_pg_write mockCtx (ms0 d zeroF) a buf len).s.log = true) ∧
    (countWr (lsm6dso32_ln_pg_read mockCtx (ms0 d zeroF) a len).s.log
        LSM6DSO32_PAGE_ADDRESS = len ∧
      paThenPV (lsm6dso32_ln_pg_read mockCtx (ms0 d zeroF) a len).s.log = true) := by
  obtain ⟨-, -, hwl, -, -, -⟩ := write_call_zero (ms0 d zeroF) a buf len rfl
  obtain ⟨-, -, hrl, -, -, -⟩ := read_call_zero (ms0 d zeroF) a len rfl
  rw [hwl, hrl]
  simp only [ms0, List.nil_append]
  refine ⟨⟨?_, ?_⟩, ⟨?_, ?_⟩⟩
  · simp only [writeCallTrace, countWr_append]
    rw [show countWr (writeLoopTrace (a / 256 % 16) (a % 256)
        ((List.range len).map fun i => buf.getD i 0)) LSM6DSO32_PAGE_ADDRESS = 0 from
      countWr_writeLoopTrace_paddr _ _ _]
    simp [countWr, wrTx, rdTx]
  · simp only [writeCallTrace, noPAafterPV, List.append_assoc]
    simp only [List.cons_append, List.nil_append]
    simp only [noPAafterPVaux, wrTx, rdTx]
    simp
    apply noPAafterPVaux_writeLoop
    intro b'
    exact noPAafterPVaux_cleanup b'
  · simp only [readCallTrace, countWr_append]
    rw [countWr_readLoopTrace_paddr]
    simp [countWr, wrTx, rdTx]
  · simp only [readCallTrace, List.append_assoc]
    simp only [List.cons_append, List.nil_append]
    simp only [paThenPV, wrTx, rdTx]
    simp
    apply paThenPV_readLoop
    exact paThenPV_cleanup

/-- Claim C6: during every error-free burst of either paged routine, the
recorded transaction stream obeys the page-wrap discipline: whenever a byte
is transferred at in-page offset 255 (so the cursor wraps to 0), the page
index is incremented by one and re-issued to the PAGE_SEL register before
the next byte transfer. -/
theorem C6_page_wrap_discipline (d : Dev) (a : Nat) (buf : List Nat) (len : Nat) :
    wrapDiscipline 0 0 (lsm6dso32_ln_pg_write mockCtx (ms0 d zeroF) a buf len).s.log = true ∧
    wrapDiscipline 0 0 (lsm6dso32_ln_pg_read mockCtx (ms0 d zeroF) a len).s.log = true := by
  obtain ⟨-, -, hwl, -, -, -⟩ := write_call_zero (ms0 d zeroF) a buf len rfl
  obtain ⟨-, -, hrl, -, -, -⟩ := read_call_zero (ms0 d zeroF) a len rfl
  rw [hwl, hrl]
  simp only [ms0, List.nil_append]
  constructor
  · simp only [writeCallTrace, List.append_assoc, List.cons_append, List.nil_append]
    simp only [wrapDiscipline, wrTx, rdTx]
    simp
    have H := wrapDiscipline_wloop ((List.range len).map fun i => buf.getD i 0)
      (a / 256 % 16) (a % 256) _ (by omega) (fun p o => wrapDiscipline_cleanup p o)
    have hmm : a / 256 % 16 % 16 = a / 256 % 16 := by omega
    rw [hmm] at H
    simpa [wrTx, rdTx, List.getD] using H
  · simp only [readCallTrace, List.append_assoc, List.cons_append, List.nil_append]
    simp only [wrapDiscipline, wrTx, rdTx]
    simp
    have H := wrapDiscipline_rloop len (a / 256 % 16) (a % 256) 0 _ (by omega)
      (fun p o => wrapDiscipline_cleanup p o)
    have hmm : a / 256 % 16 % 16 = a / 256 % 16 := by omega
    rw [hmm] at H
    simpa [wrTx, rdTx, List.getD] using H

/-- Claim C10: since the len parameter is a uint8_t, a burst transfers at
most 255 bytes, the in-page cursor wraps at most once per call, and the
in-loop page-select re-issue runs at most once: each call writes the
PAGE_SEL register at most 3 times in total (the page-select of the setup,
at most one wrap re-issue, and the reset to page 0 of the cleanup), so a
burst spanning three or more page boundaries is unreachable. -/
theorem C10_at_most_one_wrap (d : Dev) (a : Nat) (buf : List Nat) (len : Nat)
    (h255 : len ≤ 255) :
    countWr (lsm6dso32_ln_pg_write mockCtx (ms0 d zeroF) a buf len).s.log
      LSM6DSO32_PAGE_SEL ≤ 3 ∧
    countWr (lsm6dso32_ln_pg_read mockCtx (ms0 d zeroF) a len).s.log
      LSM6DSO32_PAGE_SEL ≤ 3 := by
  obtain ⟨-, -, hwl, -, -, -⟩ := write_call_zero (ms0 d zeroF) a buf len rfl
  obtain ⟨-, -, hrl, -, -, -⟩ := read_call_zero (ms0 d zeroF) a len rfl
  rw [hwl, hrl]
  simp only [ms0, List.nil_append]
  constructor
  · simp only [writeCallTrace, countWr_append]
    have hle := countWr_writeLoopTrace_psel_le_one
      ((List.range len).map fun i => buf.getD i 0) (a / 256 % 16) (a % 256)
      (by omega) (by simp [List.length_map, List.length_range]; omega)
    have hpre : countWr [rdTx LSM6DSO32_FUNC_CFG_ACCESS, wrTx LSM6DSO32_FUNC_CFG_ACCESS 2,
        rdTx LSM6DSO32_PAGE_RW, wrTx LSM6DSO32_PAGE_RW 2,
        rdTx LSM6DSO32_PAGE_SEL, wrTx LSM6DSO32_PAGE_SEL (a / 256 % 16 % 16),
        wrTx LSM6DSO32_PAGE_ADDRESS (a % 256)] LSM6DSO32_PAGE_SEL = 1 := by
      simp [countWr, wrTx, rdTx]
    have hpost : countWr [wrTx LSM6DSO32_PAGE_SEL 0, rdTx LSM6DSO32_PAGE_RW,
        wrTx LSM6DSO32_PAGE_RW 0, rdTx LSM6DSO32_FUNC_CFG_ACCESS,
        wrTx LSM6DSO32_FUNC_CFG_ACCESS 0] LSM6DSO32_PAGE_SEL = 1 := by
      simp [countWr, wrTx, rdTx]
    omega
  · simp only [readCallTrace, countWr_append]
    have hle := countWr_readLoopTrace_psel_le_one len (a / 256 % 16) (a % 256)
      (by omega) (by omega)
    have hpre : countWr [rdTx LSM6DSO32_FUNC_CFG_ACCESS, wrTx LSM6DSO32_FUNC_CFG_ACCESS 2,
        rdTx LSM6DSO32_PAGE_RW, wrTx LSM6DSO32_PAGE_RW 1,
        rdTx LSM6DSO32_PAGE_SEL, wrTx LSM6DSO32_PAGE_SEL (a / 256 % 16 % 16)]
        LSM6DSO32_PAGE_SEL = 1 := by
      simp [countWr, wrTx, rdTx]
    have hpost : countWr [wrTx LSM6DSO32_PAGE_SEL 0, rdTx LSM6DSO32_PAGE_RW,
        wrTx LSM6DSO32_PAGE_RW 0, rdTx LSM6DSO32_FUNC_CFG_ACCESS,
        wrTx LSM6DSO32_FUNC_CFG_ACCESS 0] LSM6DSO32_PAGE_SEL = 1 := by
      simp [countWr, wrTx, rdTx]
    omega

/-- Concrete instantiation of C10 at the spec's example input a = 250,
n = 20. -/
theorem C10_witness :
    20 ≤ 255 ∧
    countWr (lsm6dso32_ln_pg_write mockCtx (ms0 dev0 zeroF) 250 (List.range 20) 20).s.log
      LSM6DSO32_PAGE_SEL ≤ 3 ∧
    countWr (lsm6dso32_ln_pg_read mockCtx (ms0 dev0 zeroF) 250 20).s.log
      LSM6DSO32_PAGE_SEL ≤ 3 :=
  ⟨by decide, (C10_at_most_one_wrap dev0 250 (List.range 20) 20 (by decide)).1,
    (C10_at_most_one_wrap dev0 250 (List.range 20) 20 (by decide)).2⟩

/-- Claim C9: lsm6dso32_mem_bank_get normalises the reg_access field through
a switch whose default case silently yields LSM6DSO32_USER_BANK: any register
pattern other than the three named banks is mapped to the user bank, and the
transport status of the read is returned unchanged (no error is surfaced). -/
theorem C9_mem_bank_get_default (d : Dev) (F : Nat → Int)
    (h0 : d.reg_access ≠ LSM6DSO32_USER_BANK)
    (h1 : d.reg_access ≠ LSM6DSO32_SENSOR_HUB_BANK)
    (h2 : d.reg_access ≠ LSM6DSO32_EMBEDDED_FUNC_BANK) :
    (lsm6dso32_mem_bank_get mockCtx (ms0 d F)).val = LSM6DSO32_USER_BANK ∧
    (lsm6dso32_mem_bank_get mockCtx (ms0 d F)).ret = F 0 := by
  simp [lsm6dso32_mem_bank_get, mockRead, devReadVal, ms0, h0, h1, h2]

/-- Concrete instantiation of C9 at the (only) unrecognised 2-bit pattern 3,
with a failing transport status -5 passed through unchanged. -/
theorem C9_witness :
    (lsm6dso32_mem_bank_get mockCtx
        (ms0 ⟨3, 0, 0, 0, 0, 0, 0, fun _ => 0⟩ (fun _ => -5))).val = LSM6DSO32_USER_BANK ∧
    (lsm6dso32_mem_bank_get mockCtx
        (ms0 ⟨3, 0, 0, 0, 0, 0, 0, fun _ => 0⟩ (fun _ => -5))).ret = -5 :=
  C9_mem_bank_get_default ⟨3, 0, 0, 0, 0, 0, 0, fun _ => 0⟩ (fun _ => -5)
    (by decide) (by decide) (by decide)

/-- Concrete instantiation of C2 at the spec's example: address 250 and 20
bytes, a range crossing the 255 to 0 page boundary once. -/
theorem C2_witness :
    (List.range 20).length ≤ 255 ∧
    256 < 250 % 256 + (List.range 20).length ∧
    linOf 250 + (List.range 20).length ≤ 4096 ∧
    (lsm6dso32_ln_pg_read mockCtx
        (lsm6dso32_ln_pg_write mockCtx (ms0 dev0 zeroF) 250 (List.range 20)
          (List.range 20).length).s
        250 (List.range 20).length).data = List.range 20 :=
  ⟨by decide, by decide, by decide,
    C2_write_read_round_trip dev0 250 (List.range 20) (by decide) (by decide) (by decide)⟩

lemma stSum_nil : stSum [] = 0 := rfl

lemma stSum_append (A B : List Tx) : stSum (A ++ B) = stSum A + stSum B := by
  simp [stSum]

lemma stSum_singleton (t : Tx) : stSum [t] = t.st := by
  simp [stSum]

lemma mockRead_s_log (s : MS) (r : Reg) :
    (mockRead s r).s.log = s.log ++ [⟨false, r, 0, s.faults s.k⟩] := rfl

lemma mockRead_ret_eq (s : MS) (r : Reg) : (mockRead s r).ret = s.faults s.k := rfl

lemma mockRead_s_faults (s : MS) (r : Reg) : (mockRead s r).s.faults = s.faults := rfl

lemma mockRead_s_k (s : MS) (r : Reg) : (mockRead s r).s.k = s.k + 1 := rfl

lemma mockWrite_s_log (s : MS) (r : Reg) (a b : Nat) :
    (mockWrite s r a b).s.log = s.log ++ [⟨true, r, a, s.faults s.k⟩] := rfl

lemma mockWrite_ret_eq (s : MS) (r : Reg) (a b : Nat) :
    (mockWrite s r a b).ret = s.faults s.k := rfl

lemma mockWrite_s_faults (s : MS) (r : Reg) (a b : Nat) :
    (mockWrite s r a b).s.faults = s.faults := rfl

lemma mockWrite_s_k (s : MS) (r : Reg) (a b : Nat) :
    (mockWrite s r a b).s.k = s.k + 1 := rfl

lemma wloop_sum (bs : List Nat) : ∀ (s : MS) (msb lsb : Nat),
    stSum (ln_pg_write_loop mockCtx s bs msb lsb).s.log =
      stSum s.log + (ln_pg_write_loop mockCtx s bs msb lsb).ret := by
  induction bs with
  | nil =>
    intro s msb lsb
    rw [ln_pg_write_loop.eq_1]
    simp
  | cons b rest ih =>
    intro s msb lsb
    rw [ln_pg_write_loop.eq_2]
    simp only [ctx_read_eq, ctx_write_eq]
    split_ifs with hc1 hc2 hc3 hc4 <;>
      simp_all only [ih, mockRead_s_log, mockRead_ret_eq, mockRead_s_faults, mockRead_s_k,
        mockWrite_s_log, mockWrite_ret_eq, mockWrite_s_faults, mockWrite_s_k,
        stSum_append, stSum_singleton, ne_eq] <;>
      omega

lemma rloop_sum (n : Nat) : ∀ (s : MS) (msb lsb : Nat),
    stSum (ln_pg_read_loop mockCtx s n msb lsb).s.log =
      stSum s.log + (ln_pg_read_loop mockCtx s n msb lsb).ret := by
  induction n with
  | zero =>
    intro s msb lsb
    rw [ln_pg_read_loop.eq_1]
    simp
  | succ n ih =>
    intro s msb lsb
    rw [ln_pg_read_loop.eq_2]
    simp only [ctx_read_eq, ctx_write_eq]
    split_ifs with hc1 hc2 hc3 hc4 hc5 <;>
      simp_all only [ih, mockRead_s_log, mockRead_ret_eq, mockRead_s_faults, mockRead_s_k,
        mockWrite_s_log, mockWrite_ret_eq, mockWrite_s_faults, mockWrite_s_k,
        stSum_append, stSum_singleton, ne_eq] <;>
      omega

lemma mbs_sum (s : MS) (v : Nat) :
    stSum (lsm6dso32_mem_bank_set mockCtx s v).s.log =
      stSum s.log + (lsm6dso32_mem_bank_set mockCtx s v).ret := by
  simp only [lsm6dso32_mem_bank_set, ctx_read_eq, ctx_write_eq]
  split_ifs with h <;>
    simp_all only [mockRead_s_log, mockRead_ret_eq, mockRead_s_faults, mockRead_s_k,
      mockWrite_s_log, mockWrite_ret_eq, mockWrite_s_faults, mockWrite_s_k,
      stSum_append, stSum_singleton] <;>
    omega

lemma pg_exit_sum (s : MS) (r : Int) :
    stSum (pg_exit mockCtx s r).s.log =
      stSum s.log + (pg_exit mockCtx s r).ret - r := by
  simp only [pg_exit, mbs_sum]
  omega

lemma write_call_sum (s : MS) (a : Nat) (buf : List Nat) (len : Nat) :
    stSum (lsm6dso32_ln_pg_write mockCtx s a buf len).s.log =
      stSum s.log + (lsm6dso32_ln_pg_write mockCtx s a buf len).ret := by
  simp only [lsm6dso32_ln_pg_write]
  simp only [ctx_read_eq, ctx_write_eq]
  split_ifs <;>
    simp_all only [pg_exit_sum, mbs_sum, wloop_sum,
      mockRead_s_log, mockRead_ret_eq, mockRead_s_faults, mockRead_s_k,
      mockWrite_s_log, mockWrite_ret_eq, mockWrite_s_faults, mockWrite_s_k,
      stSum_append, stSum_singleton, ne_eq] <;>
    omega

lemma read_call_sum (s : MS) (a : Nat) (len : Nat) :
    stSum (lsm6dso32_ln_pg_read mockCtx s a len).s.log =
      stSum s.log + (lsm6dso32_ln_pg_read mockCtx s a len).ret := by
  simp only [lsm6dso32_ln_pg_read]
  simp only [ctx_read_eq, ctx_write_eq]
  split_ifs <;>
    simp_all only [pg_exit_sum, mbs_sum, rloop_sum,
      mockRead_s_log, mockRead_ret_eq, mockRead_s_faults, mockRead_s_k,
      mockWrite_s_log, mockWrite_ret_eq, mockWrite_s_faults, mockWrite_s_k,
      stSum_append, stSum_singleton, ne_eq] <;>
    omega

/-- Claim C8 (amended): the status returned by lsm6dso32_ln_pg_write and
lsm6dso32_ln_pg_read equals the sum of the transport status codes of all
register transactions actually executed, for every status schedule: the
bank-restore status is added to an already-failed status rather than
short-circuited.  When every transaction succeeds the sum, hence the return
value, is zero; the converse fails for opposite-signed codes (see the
counterexample). -/
theorem C8_return_is_status_sum (d : Dev) (F : Nat → Int) (a : Nat)
    (buf : List Nat) (len aR lenR : Nat) :
    (lsm6dso32_ln_pg_write mockCtx (ms0 d F) a buf len).ret =
      stSum (lsm6dso32_ln_pg_write mockCtx (ms0 d F) a buf len).s.log ∧
    (lsm6dso32_ln_pg_read mockCtx (ms0 d F) aR lenR).ret =
      stSum (lsm6dso32_ln_pg_read mockCtx (ms0 d F) aR lenR).s.log := by
  have hw := write_call_sum (ms0 d F) a buf len
  have hr := read_call_sum (ms0 d F) aR lenR
  rw [show (ms0 d F).log = [] from rfl] at hw hr
  rw [stSum_nil] at hw hr
  constructor <;> omega

/-- Claim C8 as stated is refuted: with status -1 injected at the third
transaction and status +1 at the fourth, a zero-length write call returns 0
even though its third transaction failed, because the summed codes cancel;
zero is returned without every transaction having succeeded. -/
theorem C8_counterexample :
    (lsm6dso32_ln_pg_write mockCtx
        (ms0 dev0 (fun i => if i = 2 then -1 else if i = 3 then 1 else 0)) 0 [] 0).ret = 0 ∧
    ((lsm6dso32_ln_pg_write mockCtx
        (ms0 dev0 (fun i => if i = 2 then -1 else if i = 3 then 1 else 0)) 0 [] 0).s.log.getD
      2 txD).st = -1 := by
  refine ⟨by decide, by decide⟩

lemma drop_append_ge (A B : List Tx) (n : Nat) (h : A.length ≤ n) :
    (A ++ B).drop n = B.drop (n - A.length) := by
  have hn : n = A.length + (n - A.length) := by omega
  conv_lhs => rw [hn]
  rw [← List.drop_drop, List.drop_left]

lemma lastTx_concat (A : List Tx) (t : Tx) : lastTx (A ++ [t]) = t := by
  unfold lastTx
  rw [List.length_append]
  norm_num

lemma burstFree_drop (l : List Tx) (n : Nat) (h : burstFree l = true) :
    burstFree (l.drop n) = true := by
  simp only [burstFree, List.all_eq_true] at h ⊢
  intro t ht
  exact h t (List.mem_of_mem_drop ht)

lemma mbs_1f (s : MS) (v : Nat) (kf : Nat) (e : Int) (he : e ≠ 0)
    (hF : s.faults = oneFault kf e) (hk : s.k ≤ kf) :
    (s.k + 1 + 1 ≤ kf ∧
      lsm6dso32_mem_bank_set mockCtx s v =
        ⟨⟨devWrite s.dev LSM6DSO32_FUNC_CFG_ACCESS v s.dev.fca_rest,
          s.log ++ [rdTx LSM6DSO32_FUNC_CFG_ACCESS, wrTx LSM6DSO32_FUNC_CFG_ACCESS v],
          s.k + 1 + 1, s.faults⟩, 0⟩)
    ∨ (s.k = kf ∧
      lsm6dso32_mem_bank_set mockCtx s v =
        ⟨⟨s.dev, s.log ++ [⟨false, LSM6DSO32_FUNC_CFG_ACCESS, 0, e⟩],
          s.k + 1, s.faults⟩, e⟩)
    ∨ (s.k + 1 = kf ∧
      lsm6dso32_mem_bank_set mockCtx s v =
        ⟨⟨s.dev, s.log ++ [rdTx LSM6DSO32_FUNC_CFG_ACCESS, ⟨true, LSM6DSO32_FUNC_CFG_ACCESS, v, e⟩],
          s.k + 1 + 1, s.faults⟩, e⟩) := by
  by_cases h1 : s.k = kf
  · right; left
    refine ⟨h1, ?_⟩
    have e0 : oneFault kf e s.k = e := by simp [oneFault, h1]
    simp only [lsm6dso32_mem_bank_set, ctx_read_eq, ctx_write_eq]
    simp only [mockRead, mockWrite, hF, e0]
    simp [he, devAfterRead]
  · by_cases h2 : s.k + 1 = kf
    · right; right
      refine ⟨h2, ?_⟩
      have e0 : oneFault kf e s.k = 0 := by simp [oneFault, h1]
      have e1 : oneFault kf e (s.k + 1) = e := by simp [oneFault, h2]
      simp only [lsm6dso32_mem_bank_set, ctx_read_eq, ctx_write_eq]
      simp only [mockRead, mockWrite, hF, e0, e1, devReadVal]
      simp [he, devAfterRead, rdTx]
    · left
      refine ⟨by omega, ?_⟩
      have e0 : oneFault kf e s.k = 0 := by simp [oneFault, h1]
      have e1 : oneFault kf e (s.k + 1) = 0 := by simp [oneFault, h2]
      simp only [lsm6dso32_mem_bank_set, ctx_read_eq, ctx_write_eq]
      simp only [mockRead, mockWrite, hF, e0, e1, devReadVal]
      simp [devAfterRead, rdTx, wrTx]

lemma wstep_nowrap_g (s : MS) (b : Nat) (rest : List Nat) (msb lsb : Nat)
    (h0 : s.faults s.k = 0) (h2 : ¬ (lsb + 1) % 256 = 0) :
    ln_pg_write_loop mockCtx s (b :: rest) msb lsb =
      ln_pg_write_loop mockCtx
        ⟨devWrite s.dev LSM6DSO32_PAGE_VALUE b 0,
          s.log ++ [wrTx LSM6DSO32_PAGE_VALUE b], s.k + 1, s.faults⟩
        rest msb ((lsb + 1) % 256) := by
  rw [ln_pg_write_loop.eq_2]
  simp only [ctx_read_eq, ctx_write_eq]
  simp only [mockRead, mockWrite, h0]
  simp [wrTx, h2]

lemma wstep_wrap_g (s : MS) (b : Nat) (rest : List Nat) (msb lsb : Nat)
    (h0 : s.faults s.k = 0) (ha : s.faults (s.k + 1) = 0) (hb : s.faults (s.k + 1 + 1) = 0)
    (h2 : (lsb + 1) % 256 = 0) :
    ln_pg_write_loop mockCtx s (b :: rest) msb lsb =
      ln_pg_write_loop mockCtx
        ⟨devWrite (devWrite s.dev LSM6DSO32_PAGE_VALUE b 0) LSM6DSO32_PAGE_SEL
            ((msb + 1) % 256 % 16) 1,
          s.log ++ [wrTx LSM6DSO32_PAGE_VALUE b, rdTx LSM6DSO32_PAGE_SEL,
            wrTx LSM6DSO32_PAGE_SEL ((msb + 1) % 256 % 16)],
          s.k + 1 + 1 + 1, s.faults⟩
        rest ((msb + 1) % 256) ((lsb + 1) % 256) := by
  rw [ln_pg_write_loop.eq_2]
  simp only [ctx_read_eq, ctx_write_eq]
  simp only [mockRead, mockWrite, h0, ha, hb]
  simp [wrTx, rdTx, devAfterRead, h2]

lemma wstep_fail_pv (s : MS) (b : Nat) (rest : List Nat) (msb lsb : Nat)
    (hne : s.faults s.k ≠ 0) :
    ln_pg_write_loop mockCtx s (b :: rest) msb lsb =
      ⟨⟨s.dev, s.log ++ [⟨true, LSM6DSO32_PAGE_VALUE, b, s.faults s.k⟩],
        s.k + 1, s.faults⟩, s.faults s.k⟩ := by
  rw [ln_pg_write_loop.eq_2]
  simp only [ctx_read_eq, ctx_write_eq]
  simp only [mockRead, mockWrite]
  simp [hne]

lemma wstep_fail_wraprd (s : MS) (b : Nat) (rest : List Nat) (msb lsb : Nat)
    (h0 : s.faults s.k = 0) (h2 : (lsb + 1) % 256 = 0)
    (hne : s.faults (s.k + 1) ≠ 0) :
    ln_pg_write_loop mockCtx s (b :: rest) msb lsb =
      ⟨⟨devWrite s.dev LSM6DSO32_PAGE_VALUE b 0,
        s.log ++ [wrTx LSM6DSO32_PAGE_VALUE b,
          ⟨false, LSM6DSO32_PAGE_SEL, 0, s.faults (s.k + 1)⟩],
        s.k + 1 + 1, s.faults⟩, s.faults (s.k + 1)⟩ := by
  rw [ln_pg_write_loop.eq_2]
  simp only [ctx_read_eq, ctx_write_eq]
  simp only [mockRead, mockWrite, h0]
  simp [wrTx, hne, h2]

lemma wstep_fail_wrapwr (s : MS) (b : Nat) (rest : List Nat) (msb lsb : Nat)
    (h0 : s.faults s.k = 0) (ha : s.faults (s.k + 1) = 0) (h2 : (lsb + 1) % 256 = 0)
    (hne : s.faults (s.k + 1 + 1) ≠ 0) :
    ln_pg_write_loop mockCtx s (b :: rest) msb lsb =
      ⟨⟨devWrite s.dev LSM6DSO32_PAGE_VALUE b 0,
        s.log ++ [wrTx LSM6DSO32_PAGE_VALUE b, rdTx LSM6DSO32_PAGE_SEL,
          ⟨true, LSM6DSO32_PAGE_SEL, (msb + 1) % 256 % 16, s.faults (s.k + 1 + 1)⟩],
        s.k + 1 + 1 + 1, s.faults⟩, s.faults (s.k + 1 + 1)⟩ := by
  rw [ln_pg_write_loop.eq_2]
  simp only [ctx_read_eq, ctx_write_eq]
  simp only [mockRead, mockWrite, h0, ha]
  simp [wrTx, rdTx, devAfterRead, hne, h2]

lemma wloop_1f (bs : List Nat) : ∀ (s : MS) (msb lsb kf : Nat) (e : Int), e ≠ 0 →
    s.faults = oneFault kf e → s.log.length = s.k → s.k ≤ kf →
    (ln_pg_write_loop mockCtx s bs msb lsb).s.faults = s.faults ∧
    (ln_pg_write_loop mockCtx s bs msb lsb).s.log.length =
      (ln_pg_write_loop mockCtx s bs msb lsb).s.k ∧
    (((ln_pg_write_loop mockCtx s bs msb lsb).ret = 0 ∧
        (ln_pg_write_loop mockCtx s bs msb lsb).s.k ≤ kf) ∨
      ((ln_pg_write_loop mockCtx s bs msb lsb).ret = e ∧
        (ln_pg_write_loop mockCtx s bs msb lsb).s.k = kf + 1)) := by
  induction bs with
  | nil =>
    intro s msb lsb kf e he hF hlen hk
    rw [ln_pg_write_loop.eq_1]
    exact ⟨rfl, hlen, Or.inl ⟨rfl, hk⟩⟩
  | cons b rest ih =>
    intro s msb lsb kf e he hF hlen hk
    by_cases hk0 : s.k = kf
    · have hne : s.faults s.k ≠ 0 := by simp [hF, oneFault, hk0, he]
      rw [wstep_fail_pv s b rest msb lsb hne]
      refine ⟨rfl, by simp [hlen], Or.inr ⟨by simp [hF, oneFault, hk0], by simp [hk0]⟩⟩
    · have h0 : s.faults s.k = 0 := by simp [hF, oneFault, hk0]
      by_cases h2 : (lsb + 1) % 256 = 0
      · by_cases hk1 : s.k + 1 = kf
        · have hne : s.faults (s.k + 1) ≠ 0 := by simp [hF, oneFault, hk1, he]
          rw [wstep_fail_wraprd s b rest msb lsb h0 h2 hne]
          refine ⟨rfl, by simp [hlen], Or.inr ⟨by simp [hF, oneFault, hk1], by dsimp only; omega⟩⟩
        · have ha : s.faults (s.k + 1) = 0 := by simp [hF, oneFault, hk1]
          by_cases hk2 : s.k + 1 + 1 = kf
          · have hne : s.faults (s.k + 1 + 1) ≠ 0 := by simp [hF, oneFault, hk2, he]
            rw [wstep_fail_wrapwr s b rest msb lsb h0 ha h2 hne]
            refine ⟨rfl, by simp [hlen], Or.inr ⟨by simp [hF, oneFault, hk2], by dsimp only; omega⟩⟩
          · have hb : s.faults (s.k + 1 + 1) = 0 := by simp [hF, oneFault, hk2]
            rw [wstep_wrap_g s b rest msb lsb h0 ha hb h2]
            exact ih _ _ _ kf e he hF (by simp [hlen]) (by dsimp only; omega)
      · rw [wstep_nowrap_g s b rest msb lsb h0 h2]
        exact ih _ _ _ kf e he hF (by simp [hlen]) (by dsimp only; omega)

lemma rstep_nowrap_g (s : MS) (n : Nat) (msb lsb : Nat)
    (h0 : s.faults s.k = 0) (ha : s.faults (s.k + 1) = 0) (h2 : ¬ (lsb + 1) % 256 = 0) :
    ln_pg_read_loop mockCtx s (n + 1) msb lsb =
      (let rr := ln_pg_read_loop mockCtx
        ⟨devAfterRead (devWrite s.dev LSM6DSO32_PAGE_ADDRESS lsb 0) LSM6DSO32_PAGE_VALUE,
          s.log ++ [wrTx LSM6DSO32_PAGE_ADDRESS lsb, rdTx LSM6DSO32_PAGE_VALUE],
          s.k + 1 + 1, s.faults⟩ n msb ((lsb + 1) % 256)
      ⟨rr.s, rr.ret,
        (devWrite s.dev LSM6DSO32_PAGE_ADDRESS lsb 0).mem
            ((devWrite s.dev LSM6DSO32_PAGE_ADDRESS lsb 0).page_sel * 256 +
              (devWrite s.dev LSM6DSO32_PAGE_ADDRESS lsb 0).page_addr) :: rr.data⟩) := by
  rw [ln_pg_read_loop.eq_2]
  simp only [ctx_read_eq, ctx_write_eq]
  simp only [mockRead, mockWrite, h0, ha, devReadVal]
  simp [wrTx, rdTx, h2]

lemma rstep_wrap_g (s : MS) (n : Nat) (msb lsb : Nat)
    (h0 : s.faults s.k = 0) (ha : s.faults (s.k + 1) = 0)
    (hb : s.faults (s.k + 1 + 1) = 0) (hc : s.faults (s.k + 1 + 1 + 1) = 0)
    (h2 : (lsb + 1) % 256 = 0) :
    ln_pg_read_loop mockCtx s (n + 1) msb lsb =
      (let rr := ln_pg_read_loop mockCtx
        ⟨devWrite (devAfterRead (devWrite s.dev LSM6DSO32_PAGE_ADDRESS lsb 0) LSM6DSO32_PAGE_VALUE)
            LSM6DSO32_PAGE_SEL ((msb + 1) % 256 % 16) 1,
          s.log ++ [wrTx LSM6DSO32_PAGE_ADDRESS lsb, rdTx LSM6DSO32_PAGE_VALUE,
            rdTx LSM6DSO32_PAGE_SEL, wrTx LSM6DSO32_PAGE_SEL ((msb + 1) % 256 % 16)],
          s.k + 1 + 1 + 1 + 1, s.faults⟩ n ((msb + 1) % 256) ((lsb + 1) % 256)
      ⟨rr.s, rr.ret,
        (devWrite s.dev LSM6DSO32_PAGE_ADDRESS lsb 0).mem
            ((devWrite s.dev LSM6DSO32_PAGE_ADDRESS lsb 0).page_sel * 256 +
              (devWrite s.dev LSM6DSO32_PAGE_ADDRESS lsb 0).page_addr) :: rr.data⟩) := by
  rw [ln_pg_read_loop.eq_2]
  simp only [ctx_read_eq, ctx_write_eq]
  simp only [mockRead, mockWrite, h0, ha, hb, hc, devReadVal]
  simp [wrTx, rdTx, devAfterRead, h2]

lemma rstep_fail_pa (s : MS) (n : Nat) (msb lsb : Nat)
    (hne : s.faults s.k ≠ 0) :
    ln_pg_read_loop mockCtx s (n + 1) msb lsb =
      ⟨⟨s.dev, s.log ++ [⟨true, LSM6DSO32_PAGE_ADDRESS, lsb, s.faults s.k⟩],
        s.k + 1, s.faults⟩, s.faults s.k, []⟩ := by
  rw [ln_pg_read_loop.eq_2]
  simp only [ctx_read_eq, ctx_write_eq]
  simp only [mockRead, mockWrite]
  simp [hne]

lemma rstep_fail_pv (s : MS) (n : Nat) (msb lsb : Nat)
    (h0 : s.faults s.k = 0) (hne : s.faults (s.k + 1) ≠ 0) :
    ln_pg_read_loop mockCtx s (n + 1) msb lsb =
      ⟨⟨devWrite s.dev LSM6DSO32_PAGE_ADDRESS lsb 0,
        s.log ++ [wrTx LSM6DSO32_PAGE_ADDRESS lsb,
          ⟨false, LSM6DSO32_PAGE_VALUE, 0, s.faults (s.k + 1)⟩],
        s.k + 1 + 1, s.faults⟩, s.faults (s.k + 1),
        [(devWrite s.dev LSM6DSO32_PAGE_ADDRESS lsb 0).mem
            ((devWrite s.dev LSM6DSO32_PAGE_ADDRESS lsb 0).page_sel * 256 +
              (devWrite s.dev LSM6DSO32_PAGE_ADDRESS lsb 0).page_addr)]⟩ := by
  rw [ln_pg_read_loop.eq_2]
  simp only [ctx_read_eq, ctx_write_eq]
  simp only [mockRead, mockWrite, h0, devReadVal]
  simp [wrTx, hne]

lemma rstep_fail_wraprd (s : MS) (n : Nat) (msb lsb : Nat)
    (h0 : s.faults s.k = 0) (ha : s.faults (s.k + 1) = 0) (h2 : (lsb + 1) % 256 = 0)
    (hne : s.faults (s.k + 1 + 1) ≠ 0) :
    ln_pg_read_loop mockCtx s (n + 1) msb lsb =
      ⟨⟨devAfterRead (devWrite s.dev LSM6DSO32_PAGE_ADDRESS lsb 0) LSM6DSO32_PAGE_VALUE,
        s.log ++ [wrTx LSM6DSO32_PAGE_ADDRESS lsb, rdTx LSM6DSO32_PAGE_VALUE,
          ⟨false, LSM6DSO32_PAGE_SEL, 0, s.faults (s.k + 1 + 1)⟩],
        s.k + 1 + 1 + 1, s.faults⟩, s.faults (s.k + 1 + 1),
        [(devWrite s.dev LSM6DSO32_PAGE_ADDRESS lsb 0).mem
            ((devWrite s.dev LSM6DSO32_PAGE_ADDRESS lsb 0).page_sel * 256 +
              (devWrite s.dev LSM6DSO32_PAGE_ADDRESS lsb 0).page_addr)]⟩ := by
  rw [ln_pg_read_loop.eq_2]
  simp only [ctx_read_eq, ctx_write_eq]
  simp only [mockRead, mockWrite, h0, ha, devReadVal]
  simp [wrTx, rdTx, hne, h2]

lemma rstep_fail_wrapwr (s : MS) (n : Nat) (msb lsb : Nat)
    (h0 : s.faults s.k = 0) (ha : s.faults (s.k + 1) = 0)
    (hb : s.faults (s.k + 1 + 1) = 0) (h2 : (lsb + 1) % 256 = 0)
    (hne : s.faults (s.k + 1 + 1 + 1) ≠ 0) :
    ln_pg_read_loop mockCtx s (n + 1) msb lsb =
      ⟨⟨devAfterRead (devWrite s.dev LSM6DSO32_PAGE_ADDRESS lsb 0) LSM6DSO32_PAGE_VALUE,
        s.log ++ [wrTx LSM6DSO32_PAGE_ADDRESS lsb, rdTx LSM6DSO32_PAGE_VALUE,
          rdTx LSM6DSO32_PAGE_SEL,
          ⟨true, LSM6DSO32_PAGE_SEL, (msb + 1) % 256 % 16, s.faults (s.k + 1 + 1 + 1)⟩],
        s.k + 1 + 1 + 1 + 1, s.faults⟩, s.faults (s.k + 1 + 1 + 1),
        [(devWrite s.dev LSM6DSO32_PAGE_ADDRESS lsb 0).mem
            ((devWrite s.dev LSM6DSO32_PAGE_ADDRESS lsb 0).page_sel * 256 +
              (devWrite s.dev LSM6DSO32_PAGE_ADDRESS lsb 0).page_addr)]⟩ := by
  rw [ln_pg_read_loop.eq_2]
  simp only [ctx_read_eq, ctx_write_eq]
  simp only [mockRead, mockWrite, h0, ha, hb, devReadVal]
  simp [wrTx, rdTx, devAfterRead, hne, h2]

lemma rloop_1f (n : Nat) : ∀ (s : MS) (msb lsb kf : Nat) (e : Int), e ≠ 0 →
    s.faults = oneFault kf e → s.log.length = s.k → s.k ≤ kf →
    (ln_pg_read_loop mockCtx s n msb lsb).s.faults = s.faults ∧
    (ln_pg_read_loop mockCtx s n msb lsb).s.log.length =
      (ln_pg_read_loop mockCtx s n msb lsb).s.k ∧
    (((ln_pg_read_loop mockCtx s n msb lsb).ret = 0 ∧
        (ln_pg_read_loop mockCtx s n msb lsb).s.k ≤ kf) ∨
      ((ln_pg_read_loop mockCtx s n msb lsb).ret = e ∧
        (ln_pg_read_loop mockCtx s n msb lsb).s.k = kf + 1)) := by
  induction n with
  | zero =>
    intro s msb lsb kf e he hF hlen hk
    rw [ln_pg_read_loop.eq_1]
    exact ⟨rfl, hlen, Or.inl ⟨rfl, hk⟩⟩
  | succ n ih =>
    intro s msb lsb kf e he hF hlen hk
    by_cases hk0 : s.k = kf
    · have hne : s.faults s.k ≠ 0 := by simp [hF, oneFault, hk0, he]
      rw [rstep_fail_pa s n msb lsb hne]
      refine ⟨rfl, by simp [hlen], Or.inr ⟨by simp [hF, oneFault, hk0], by simp [hk0]⟩⟩
    · have h0 : s.faults s.k = 0 := by simp [hF, oneFault, hk0]
      by_cases hk1 : s.k + 1 = kf
      · have hne : s.faults (s.k + 1) ≠ 0 := by simp [hF, oneFault, hk1, he]
        rw [rstep_fail_pv s n msb lsb h0 hne]
        refine ⟨rfl, by simp [hlen], Or.inr ⟨by simp [hF, oneFault, hk1], by dsimp only; omega⟩⟩
      · have ha : s.faults (s.k + 1) = 0 := by simp [hF, oneFault, hk1]
        by_cases h2 : (lsb + 1) % 256 = 0
        · by_cases hk2 : s.k + 1 + 1 = kf
          · have hne : s.faults (s.k + 1 + 1) ≠ 0 := by simp [hF, oneFault, hk2, he]
            rw [rstep_fail_wraprd s n msb lsb h0 ha h2 hne]
            refine ⟨rfl, by simp [hlen], Or.inr ⟨by simp [hF, oneFault, hk2], by dsimp only; omega⟩⟩
          · have hb : s.faults (s.k + 1 + 1) = 0 := by simp [hF, oneFault, hk2]
            by_cases hk3 : s.k + 1 + 1 + 1 = kf
            · have hne : s.faults (s.k + 1 + 1 + 1) ≠ 0 := by simp [hF, oneFault, hk3, he]
              rw [rstep_fail_wrapwr s n msb lsb h0 ha hb h2 hne]
              refine ⟨rfl, by simp [hlen],
                Or.inr ⟨by simp [hF, oneFault, hk3], by dsimp only; omega⟩⟩
            · have hc : s.faults (s.k + 1 + 1 + 1) = 0 := by simp [hF, oneFault, hk3]
              rw [rstep_wrap_g s n msb lsb h0 ha hb hc h2]
              have hrec := ih
                ⟨devWrite (devAfterRead (devWrite s.dev LSM6DSO32_PAGE_ADDRESS lsb 0)
                    LSM6DSO32_PAGE_VALUE) LSM6DSO32_PAGE_SEL ((msb + 1) % 256 % 16) 1,
                  s.log ++ [wrTx LSM6DSO32_PAGE_ADDRESS lsb, rdTx LSM6DSO32_PAGE_VALUE,
                    rdTx LSM6DSO32_PAGE_SEL, wrTx LSM6DSO32_PAGE_SEL ((msb + 1) % 256 % 16)],
                  s.k + 1 + 1 + 1 + 1, s.faults⟩ ((msb + 1) % 256) ((lsb + 1) % 256) kf e he hF
                (by simp [hlen]) (by dsimp only; omega)
              simpa using hrec
        · rw [rstep_nowrap_g s n msb lsb h0 ha h2]
          have hrec := ih
            ⟨devAfterRead (devWrite s.dev LSM6DSO32_PAGE_ADDRESS lsb 0) LSM6DSO32_PAGE_VALUE,
              s.log ++ [wrTx LSM6DSO32_PAGE_ADDRESS lsb, rdTx LSM6DSO32_PAGE_VALUE],
              s.k + 1 + 1, s.faults⟩ msb ((lsb + 1) % 256) kf e he hF
            (by simp [hlen]) (by dsimp only; omega)
          simpa using hrec

lemma lastTx_concat2 (A : List Tx) (u t : Tx) : lastTx (A ++ [u, t]) = t := by
  rw [show A ++ [u, t] = (A ++ [u]) ++ [t] by simp]
  exact lastTx_concat _ _

lemma pg_exit_postfault (s : MS) (ret : Int) (kf : Nat) (e : Int)
    (hF : s.faults = oneFault kf e) (hk : kf < s.k) :
    pg_exit mockCtx s ret =
      ⟨⟨devWrite s.dev LSM6DSO32_FUNC_CFG_ACCESS LSM6DSO32_USER_BANK s.dev.fca_rest,
        s.log ++ [rdTx LSM6DSO32_FUNC_CFG_ACCESS, wrTx LSM6DSO32_FUNC_CFG_ACCESS LSM6DSO32_USER_BANK],
        s.k + 1 + 1, s.faults⟩, ret⟩ := by
  have e0 : oneFault kf e s.k = 0 := by simp [oneFault]; omega
  have e1 : oneFault kf e (s.k + 1) = 0 := by simp [oneFault]; omega
  simp only [pg_exit, lsm6dso32_mem_bank_set, ctx_read_eq, ctx_write_eq]
  simp only [mockRead, mockWrite, hF, e0, e1, devReadVal]
  simp [devAfterRead, rdTx, wrTx]

lemma lastTx_append (A B : List Tx) (h : B ≠ []) : lastTx (A ++ B) = lastTx B := by
  unfold lastTx
  rw [List.length_append]
  rw [List.getD, List.getD]
  have hb : 0 < B.length := List.length_pos.mpr h
  rw [List.get?_append_right (by omega : A.length ≤ A.length + B.length - 1)]
  have h2 : A.length + B.length - 1 - A.length = B.length - 1 := by omega
  rw [h2]

lemma pg_exit_1f (s : MS) (ret : Int) (kf : Nat) (e : Int) (he : e ≠ 0)
    (hF : s.faults = oneFault kf e) (hk : s.k ≤ kf) :
    (s.k + 1 + 1 ≤ kf ∧
      pg_exit mockCtx s ret =
        ⟨⟨devWrite s.dev LSM6DSO32_FUNC_CFG_ACCESS LSM6DSO32_USER_BANK s.dev.fca_rest,
          s.log ++ [rdTx LSM6DSO32_FUNC_CFG_ACCESS,
            wrTx LSM6DSO32_FUNC_CFG_ACCESS LSM6DSO32_USER_BANK],
          s.k + 1 + 1, s.faults⟩, ret⟩)
    ∨ (s.k = kf ∧
      pg_exit mockCtx s ret =
        ⟨⟨s.dev, s.log ++ [⟨false, LSM6DSO32_FUNC_CFG_ACCESS, 0, e⟩],
          s.k + 1, s.faults⟩, ret + e⟩)
    ∨ (s.k + 1 = kf ∧
      pg_exit mockCtx s ret =
        ⟨⟨s.dev, s.log ++ [rdTx LSM6DSO32_FUNC_CFG_ACCESS,
            ⟨true, LSM6DSO32_FUNC_CFG_ACCESS, LSM6DSO32_USER_BANK, e⟩],
          s.k + 1 + 1, s.faults⟩, ret + e⟩) := by
  rcases mbs_1f s LSM6DSO32_USER_BANK kf e he hF hk with ⟨h, heq⟩ | ⟨h, heq⟩ | ⟨h, heq⟩
  · exact Or.inl ⟨h, by simp [pg_exit, heq]⟩
  · exact Or.inr (Or.inl ⟨h, by simp [pg_exit, heq]⟩)
  · exact Or.inr (Or.inr ⟨h, by simp [pg_exit, heq]⟩)

lemma burstFree_drop_append (A B : List Tx) (n : Nat) (h : A.length ≤ n)
    (hB : burstFree B = true) : burstFree ((A ++ B).drop n) = true := by
  rw [drop_append_ge A B n h]
  exact burstFree_drop B _ hB

set_option maxHeartbeats 1000000 in
lemma wtail_1f (s : MS) (bs : List Nat) (msb lsb : Nat) (kf : Nat) (e : Int)
    (he : e ≠ 0) (hF : s.faults = oneFault kf e) (hlen : s.log.length = s.k)
    (hk : s.k ≤ kf) :
    (kf < (pg_write_tail s bs msb lsb).s.log.length →
      (pg_write_tail s bs msb lsb).s.log.length ≤ kf + 4 ∧
      burstFree ((pg_write_tail s bs msb lsb).s.log.drop (kf + 1)) = true) ∧
    (2 ≤ kf →
      0 < (pg_write_tail s bs msb lsb).s.log.length ∧
      (lastTx (pg_write_tail s bs msb lsb).s.log).reg = LSM6DSO32_FUNC_CFG_ACCESS ∧
      ((lastTx (pg_write_tail s bs msb lsb).s.log).st = 0 →
        (lastTx (pg_write_tail s bs msb lsb).s.log).w = true ∧
        (lastTx (pg_write_tail s bs msb lsb).s.log).val = LSM6DSO32_USER_BANK)) := by
  obtain ⟨hWf, hWlen, hWc⟩ := wloop_1f bs s msb lsb kf e he hF hlen hk
  simp only [pg_write_tail]
  set W := ln_pg_write_loop mockCtx s bs msb lsb
  rcases hWc with ⟨hr0, hkle⟩ | ⟨hre, hkeq⟩
  · -- the transfer loop succeeded
    rw [if_neg (by rw [hr0]; simp : ¬ W.ret ≠ 0)]
    by_cases hq0 : W.s.k = kf
    · -- the page-selector reset write fails
      rw [if_pos ?c6]
      case c6 =>
        rw [mockWrite_ret_eq, hWf, hF]
        simp [oneFault, hq0, he]
      rw [pg_exit_postfault _ _ kf e ?hf6 ?hk6]
      case hf6 =>
        simp only [mockWrite_s_faults]
        rw [hWf]
        exact hF
      case hk6 =>
        simp only [mockWrite_s_k]
        omega
      simp only [mockWrite_s_log, mockWrite_s_k, List.append_assoc, List.singleton_append,
        List.cons_append]
      refine ⟨fun h => ⟨?_, ?_⟩, fun h2 => ⟨?_, ?_⟩⟩
      · simp only [List.length_append, List.length_cons, List.length_nil]
        omega
      · exact burstFree_drop_append _ _ _ (by omega) (by simp [burstFree, wrTx, rdTx])
      · simp only [List.length_append, List.length_cons, List.length_nil]
        omega
      · rw [lastTx_append _ _ (by simp)]
        exact ⟨rfl, fun h0 => ⟨rfl, rfl⟩⟩
    · -- the page-selector reset write succeeds
      rw [if_neg ?c6]
      case c6 =>
        rw [mockWrite_ret_eq, hWf, hF]
        simp [oneFault, hq0]
      by_cases hq1 : W.s.k + 1 = kf
      · -- the read of the enable-bit read-modify-write pair fails
        rw [pg_exit_postfault _ _ kf e ?hf7 ?hk7]
        case hf7 =>
          simp only [mockWrite_s_faults, mockRead_s_faults]
          rw [hWf]
          exact hF
        case hk7 =>
          simp only [mockWrite_s_k, mockRead_s_k]
          omega
        simp only [mockWrite_s_log, mockRead_s_log, mockWrite_s_k, mockRead_s_k,
          List.append_assoc, List.singleton_append, List.cons_append]
        refine ⟨fun h => ⟨?_, ?_⟩, fun h2 => ⟨?_, ?_⟩⟩
        · simp only [List.length_append, List.length_cons, List.length_nil]
          omega
        · exact burstFree_drop_append _ _ _ (by omega) (by simp [burstFree, wrTx, rdTx])
        · simp only [List.length_append, List.length_cons, List.length_nil]
          omega
        · rw [lastTx_append _ _ (by simp)]
          exact ⟨rfl, fun h0 => ⟨rfl, rfl⟩⟩
      · by_cases hq2 : W.s.k + 1 + 1 = kf
        · -- the write of the enable-bit read-modify-write pair fails
          rw [pg_exit_postfault _ _ kf e ?hf8 ?hk8]
          case hf8 =>
            simp only [mockWrite_s_faults, mockRead_s_faults]
            rw [hWf]
            exact hF
          case hk8 =>
            simp only [mockWrite_s_k, mockRead_s_k]
            omega
          simp only [mockWrite_s_log, mockRead_s_log, mockWrite_s_k, mockRead_s_k,
            List.append_assoc, List.singleton_append, List.cons_append]
          refine ⟨fun h => ⟨?_, ?_⟩, fun h2 => ⟨?_, ?_⟩⟩
          · simp only [List.length_append, List.length_cons, List.length_nil]
            omega
          · exact burstFree_drop_append _ _ _ (by omega) (by simp [burstFree, wrTx, rdTx])
          · simp only [List.length_append, List.length_cons, List.length_nil]
            omega
          · rw [lastTx_append _ _ (by simp)]
            exact ⟨rfl, fun h0 => ⟨rfl, rfl⟩⟩
        · -- no fault up to the final bank restore
          have HE := pg_exit_1f
            (mockWrite (mockRead (mockWrite W.s LSM6DSO32_PAGE_SEL 0 1).s
              LSM6DSO32_PAGE_RW).s LSM6DSO32_PAGE_RW 0
              (mockRead (mockWrite W.s LSM6DSO32_PAGE_SEL 0 1).s LSM6DSO32_PAGE_RW).v2).s
            ((mockRead (mockWrite W.s LSM6DSO32_PAGE_SEL 0 1).s LSM6DSO32_PAGE_RW).ret +
              (mockWrite (mockRead (mockWrite W.s LSM6DSO32_PAGE_SEL 0 1).s
                LSM6DSO32_PAGE_RW).s LSM6DSO32_PAGE_RW 0
                (mockRead (mockWrite W.s LSM6DSO32_PAGE_SEL 0 1).s LSM6DSO32_PAGE_RW).v2).ret)
            kf e he
            (by simp only [mockWrite_s_faults, mockRead_s_faults]; rw [hWf]; exact hF)
            (by simp only [mockWrite_s_k, mockRead_s_k]; omega)
          rcases HE with ⟨hB, heq2⟩ | ⟨hB, heq2⟩ | ⟨hB, heq2⟩
          · -- the bank restore runs cleanly
            rw [heq2]
            simp only [mockWrite_s_k, mockRead_s_k] at hB
            simp only [mockWrite_s_log, mockRead_s_log, mockWrite_s_k, mockRead_s_k,
              List.append_assoc, List.singleton_append, List.cons_append]
            refine ⟨fun h => ⟨?_, ?_⟩, fun h2 => ⟨?_, ?_⟩⟩
            · simp only [List.length_append, List.length_cons, List.length_nil]
              omega
            · exact burstFree_drop_append _ _ _ (by omega) (by simp [burstFree, wrTx, rdTx])
            · simp only [List.length_append, List.length_cons, List.length_nil]
              omega
            · rw [lastTx_append _ _ (by simp)]
              exact ⟨rfl, fun h0 => ⟨rfl, rfl⟩⟩
          · -- the read of the bank restore pair fails
            rw [heq2]
            simp only [mockWrite_s_k, mockRead_s_k] at hB
            simp only [mockWrite_s_log, mockRead_s_log, mockWrite_s_k, mockRead_s_k,
              List.append_assoc, List.singleton_append, List.cons_append]
            refine ⟨fun h => ⟨?_, ?_⟩, fun h2 => ⟨?_, ?_⟩⟩
            · simp only [List.length_append, List.length_cons, List.length_nil]
              omega
            · exact burstFree_drop_append _ _ _ (by omega) (by simp [burstFree, wrTx, rdTx])
            · simp only [List.length_append, List.length_cons, List.length_nil]
              omega
            · rw [lastTx_append _ _ (by simp)]
              exact ⟨rfl, fun h0 => absurd h0 he⟩
          · -- the write of the bank restore pair fails
            rw [heq2]
            simp only [mockWrite_s_k, mockRead_s_k] at hB
            simp only [mockWrite_s_log, mockRead_s_log, mockWrite_s_k, mockRead_s_k,
              List.append_assoc, List.singleton_append, List.cons_append]
            refine ⟨fun h => ⟨?_, ?_⟩, fun h2 => ⟨?_, ?_⟩⟩
            · simp only [List.length_append, List.length_cons, List.length_nil]
              omega
            · exact burstFree_drop_append _ _ _ (by omega) (by simp [burstFree, wrTx, rdTx])
            · simp only [List.length_append, List.length_cons, List.length_nil]
              omega
            · rw [lastTx_append _ _ (by simp)]
              exact ⟨rfl, fun h0 => absurd h0 he⟩
  · -- the transfer loop aborted on the injected fault
    rw [if_pos (by rw [hre]; exact he : W.ret ≠ 0)]
    rw [pg_exit_postfault _ _ kf e ?hfa ?hka]
    case hfa =>
      rw [hWf]
      exact hF
    case hka => omega
    refine ⟨fun h => ⟨?_, ?_⟩, fun h2 => ⟨?_, ?_⟩⟩
    · simp only [List.length_append, List.length_cons, List.length_nil]
      omega
    · exact burstFree_drop_append _ _ _ (by omega) (by simp [burstFree, wrTx, rdTx])
    · simp only [List.length_append, List.length_cons, List.length_nil]
      omega
    · rw [lastTx_append _ _ (by simp)]
      exact ⟨rfl, fun h0 => ⟨rfl, rfl⟩⟩

set_option maxHeartbeats 1000000 in
lemma rtail_1f (s : MS) (n : Nat) (msb lsb : Nat) (kf : Nat) (e : Int)
    (he : e ≠ 0) (hF : s.faults = oneFault kf e) (hlen : s.log.length = s.k)
    (hk : s.k ≤ kf) :
    (kf < (pg_read_tail s n msb lsb).s.log.length →
      (pg_read_tail s n msb lsb).s.log.length ≤ kf + 4 ∧
      burstFree ((pg_read_tail s n msb lsb).s.log.drop (kf + 1)) = true) ∧
    (2 ≤ kf →
      0 < (pg_read_tail s n msb lsb).s.log.length ∧
      (lastTx (pg_read_tail s n msb lsb).s.log).reg = LSM6DSO32_FUNC_CFG_ACCESS ∧
      ((lastTx (pg_read_tail s n msb lsb).s.log).st = 0 →
        (lastTx (pg_read_tail s n msb lsb).s.log).w = true ∧
        (lastTx (pg_read_tail s n msb lsb).s.log).val = LSM6DSO32_USER_BANK)) := by
  obtain ⟨hWf, hWlen, hWc⟩ := rloop_1f n s msb lsb kf e he hF hlen hk
  simp only [pg_read_tail]
  set W := ln_pg_read_loop mockCtx s n msb lsb
  rcases hWc with ⟨hr0, hkle⟩ | ⟨hre, hkeq⟩
  · -- the transfer loop succeeded
    rw [if_neg (by rw [hr0]; simp : ¬ W.ret ≠ 0)]
    by_cases hq0 : W.s.k = kf
    · -- the page-selector reset write fails
      rw [if_pos ?c6]
      case c6 =>
        rw [mockWrite_ret_eq, hWf, hF]
        simp [oneFault, hq0, he]
      rw [pg_exit_postfault _ _ kf e ?hf6 ?hk6]
      case hf6 =>
        simp only [mockWrite_s_faults]
        rw [hWf]
        exact hF
      case hk6 =>
        simp only [mockWrite_s_k]
        omega
      simp only [mockWrite_s_log, mockWrite_s_k, List.append_assoc, List.singleton_append,
        List.cons_append]
      refine ⟨fun h => ⟨?_, ?_⟩, fun h2 => ⟨?_, ?_⟩⟩
      · simp only [List.length_append, List.length_cons, List.length_nil]
        omega
      · exact burstFree_drop_append _ _ _ (by omega) (by simp [burstFree, wrTx, rdTx])
      · simp only [List.length_append, List.length_cons, List.length_nil]
        omega
      · rw [lastTx_append _ _ (by simp)]
        exact ⟨rfl, fun h0 => ⟨rfl, rfl⟩⟩
    · -- the page-selector reset write succeeds
      rw [if_neg ?c6]
      case c6 =>
        rw [mockWrite_ret_eq, hWf, hF]
        simp [oneFault, hq0]
      by_cases hq1 : W.s.k + 1 = kf
      · -- the read of the enable-bit read-modify-write pair fails
        rw [pg_exit_postfault _ _ kf e ?hf7 ?hk7]
        case hf7 =>
          simp only [mockWrite_s_faults, mockRead_s_faults]
          rw [hWf]
          exact hF
        case hk7 =>
          simp only [mockWrite_s_k, mockRead_s_k]
          omega
        simp only [mockWrite_s_log, mockRead_s_log, mockWrite_s_k, mockRead_s_k,
          List.append_assoc, List.singleton_append, List.cons_append]
        refine ⟨fun h => ⟨?_, ?_⟩, fun h2 => ⟨?_, ?_⟩⟩
        · simp only [List.length_append, List.length_cons, List.length_nil]
          omega
        · exact burstFree_drop_append _ _ _ (by omega) (by simp [burstFree, wrTx, rdTx])
        · simp only [List.length_append, List.length_cons, List.length_nil]
          omega
        · rw [lastTx_append _ _ (by simp)]
          exact ⟨rfl, fun h0 => ⟨rfl, rfl⟩⟩
      · by_cases hq2 : W.s.k + 1 + 1 = kf
        · -- the write of the enable-bit read-modify-write pair fails
          rw [pg_exit_postfault _ _ kf e ?hf8 ?hk8]
          case hf8 =>
            simp only [mockWrite_s_faults, mockRead_s_faults]
            rw [hWf]
            exact hF
          case hk8 =>
            simp only [mockWrite_s_k, mockRead_s_k]
            omega
          simp only [mockWrite_s_log, mockRead_s_log, mockWrite_s_k, mockRead_s_k,
            List.append_assoc, List.singleton_append, List.cons_append]
          refine ⟨fun h => ⟨?_, ?_⟩, fun h2 => ⟨?_, ?_⟩⟩
          · simp only [List.length_append, List.length_cons, List.length_nil]
            omega
          · exact burstFree_drop_append _ _ _ (by omega) (by simp [burstFree, wrTx, rdTx])
          · simp only [List.length_append, List.length_cons, List.length_nil]
            omega
          · rw [lastTx_append _ _ (by simp)]
            exact ⟨rfl, fun h0 => ⟨rfl, rfl⟩⟩
        · -- no fault up to the final bank restore
          have HE := pg_exit_1f
            (mockWrite (mockRead (mockWrite W.s LSM6DSO32_PAGE_SEL 0 1).s
              LSM6DSO32_PAGE_RW).s LSM6DSO32_PAGE_RW 0
              (mockRead (mockWrite W.s LSM6DSO32_PAGE_SEL 0 1).s LSM6DSO32_PAGE_RW).v2).s
            ((mockRead (mockWrite W.s LSM6DSO32_PAGE_SEL 0 1).s LSM6DSO32_PAGE_RW).ret +
              (mockWrite (mockRead (mockWrite W.s LSM6DSO32_PAGE_SEL 0 1).s
                LSM6DSO32_PAGE_RW).s LSM6DSO32_PAGE_RW 0
                (mockRead (mockWrite W.s LSM6DSO32_PAGE_SEL 0 1).s LSM6DSO32_PAGE_RW).v2).ret)
            kf e he
            (by simp only [mockWrite_s_faults, mockRead_s_faults]; rw [hWf]; exact hF)
            (by simp only [mockWrite_s_k, mockRead_s_k]; omega)
          rcases HE with ⟨hB, heq2⟩ | ⟨hB, heq2⟩ | ⟨hB, heq2⟩
          · -- the bank restore runs cleanly
            rw [heq2]
            simp only [mockWrite_s_k, mockRead_s_k] at hB
            simp only [mockWrite_s_log, mockRead_s_log, mockWrite_s_k, mockRead_s_k,
              List.append_assoc, List.singleton_append, List.cons_append]
            refine ⟨fun h => ⟨?_, ?_⟩, fun h2 => ⟨?_, ?_⟩⟩
            · simp only [List.length_append, List.length_cons, List.length_nil]
              omega
            · exact burstFree_drop_append _ _ _ (by omega) (by simp [burstFree, wrTx, rdTx])
            · simp only [List.length_append, List.length_cons, List.length_nil]
              omega
            · rw [lastTx_append _ _ (by simp)]
              exact ⟨rfl, fun h0 => ⟨rfl, rfl⟩⟩
          · -- the read of the bank restore pair fails
            rw [heq2]
            simp only [mockWrite_s_k, mockRead_s_k] at hB
            simp only [mockWrite_s_log, mockRead_s_log, mockWrite_s_k, mockRead_s_k,
              List.append_assoc, List.singleton_append, List.cons_append]
            refine ⟨fun h => ⟨?_, ?_⟩, fun h2 => ⟨?_, ?_⟩⟩
            · simp only [List.length_append, List.length_cons, List.length_nil]
              omega
            · exact burstFree_drop_append _ _ _ (by omega) (by simp [burstFree, wrTx, rdTx])
            · simp only [List.length_append, List.length_cons, List.length_nil]
              omega
            · rw [lastTx_append _ _ (by simp)]
              exact ⟨rfl, fun h0 => absurd h0 he⟩
          · -- the write of the bank restore pair fails
            rw [heq2]
            simp only [mockWrite_s_k, mockRead_s_k] at hB
            simp only [mockWrite_s_log, mockRead_s_log, mockWrite_s_k, mockRead_s_k,
              List.append_assoc, List.singleton_append, List.cons_append]
            refine ⟨fun h => ⟨?_, ?_⟩, fun h2 => ⟨?_, ?_⟩⟩
            · simp only [List.length_append, List.length_cons, List.length_nil]
              omega
            · exact burstFree_drop_append _ _ _ (by omega) (by simp [burstFree, wrTx, rdTx])
            · simp only [List.length_append, List.length_cons, List.length_nil]
              omega
            · rw [lastTx_append _ _ (by simp)]
              exact ⟨rfl, fun h0 => absurd h0 he⟩
  · -- the transfer loop aborted on the injected fault
    rw [if_pos (by rw [hre]; exact he : W.ret ≠ 0)]
    rw [pg_exit_postfault _ _ kf e ?hfa ?hka]
    case hfa =>
      rw [hWf]
      exact hF
    case hka => omega
    refine ⟨fun h => ⟨?_, ?_⟩, fun h2 => ⟨?_, ?_⟩⟩
    · simp only [List.length_append, List.length_cons, List.length_nil]
      omega
    · exact burstFree_drop_append _ _ _ (by omega) (by simp [burstFree, wrTx, rdTx])
    · simp only [List.length_append, List.length_cons, List.length_nil]
      omega
    · rw [lastTx_append _ _ (by simp)]
      exact ⟨rfl, fun h0 => ⟨rfl, rfl⟩⟩

set_option maxHeartbeats 1000000 in
lemma write_call_1f (d : Dev) (a : Nat) (buf : List Nat) (len kf : Nat) (e : Int)
    (he : e ≠ 0) :
    (kf < (lsm6dso32_ln_pg_write mockCtx (ms0 d (oneFault kf e)) a buf len).s.log.length →
      (lsm6dso32_ln_pg_write mockCtx (ms0 d (oneFault kf e)) a buf len).s.log.length ≤ kf + 4 ∧
      burstFree ((lsm6dso32_ln_pg_write mockCtx (ms0 d (oneFault kf e))
        a buf len).s.log.drop (kf + 1)) = true) ∧
    (2 ≤ kf →
      0 < (lsm6dso32_ln_pg_write mockCtx (ms0 d (oneFault kf e)) a buf len).s.log.length ∧
      (lastTx (lsm6dso32_ln_pg_write mockCtx (ms0 d (oneFault kf e)) a buf len).s.log).reg =
        LSM6DSO32_FUNC_CFG_ACCESS ∧
      ((lastTx (lsm6dso32_ln_pg_write mockCtx (ms0 d (oneFault kf e)) a buf len).s.log).st = 0 →
        (lastTx (lsm6dso32_ln_pg_write mockCtx (ms0 d (oneFault kf e)) a buf len).s.log).w = true ∧
        (lastTx (lsm6dso32_ln_pg_write mockCtx (ms0 d (oneFault kf e)) a buf len).s.log).val =
          LSM6DSO32_USER_BANK)) := by
  simp only [lsm6dso32_ln_pg_write, ms0]
  rcases mbs_1f ⟨d, [], 0, oneFault kf e⟩ LSM6DSO32_EMBEDDED_FUNC_BANK kf e he rfl
    (by simp) with ⟨hA, heq⟩ | ⟨hB, heq⟩ | ⟨hC, heq⟩
  · -- bank switch succeeded, kf is at least 2
    rw [heq]
    simp only [ctx_read_eq, ctx_write_eq]
    rw [if_neg ?c0]
    case c0 => simp
    by_cases hk2 : kf = 2
    · subst hk2
      rw [if_pos ?cb2]
      case cb2 =>
        simp only [mockRead_ret_eq, mockWrite_ret_eq, mockRead_s_faults, mockRead_s_k,
          mockWrite_s_faults, mockWrite_s_k]
        simpa [oneFault] using he
      rw [pg_exit_postfault _ _ 2 e ?hf2 ?hk2b]
      case hf2 => simp only [mockWrite_s_faults, mockRead_s_faults]
      case hk2b =>
        simp only [mockWrite_s_k, mockRead_s_k]
        omega
      refine ⟨fun h => ⟨?_, ?_⟩, fun h2 => ⟨?_, ?_⟩⟩
      · simp only [mockWrite_s_log, mockRead_s_log, List.length_append, List.length_cons,
          List.length_nil, List.nil_append]
        omega
      · apply burstFree_drop _ _ ?bf2
        case bf2 => rfl
      · simp only [mockWrite_s_log, mockRead_s_log, List.length_append, List.length_cons,
          List.length_nil, List.nil_append]
        omega
      · exact ⟨rfl, fun h0 => ⟨rfl, rfl⟩⟩
    by_cases hk3 : kf = 3
    · subst hk3
      rw [if_pos ?cb3]
      case cb3 =>
        simp only [mockRead_ret_eq, mockWrite_ret_eq, mockRead_s_faults, mockRead_s_k,
          mockWrite_s_faults, mockWrite_s_k]
        simpa [oneFault] using he
      rw [pg_exit_postfault _ _ 3 e ?hf3 ?hk3b]
      case hf3 => simp only [mockWrite_s_faults, mockRead_s_faults]
      case hk3b =>
        simp only [mockWrite_s_k, mockRead_s_k]
        omega
      refine ⟨fun h => ⟨?_, ?_⟩, fun h2 => ⟨?_, ?_⟩⟩
      · simp only [mockWrite_s_log, mockRead_s_log, List.length_append, List.length_cons,
          List.length_nil, List.nil_append]
        omega
      · apply burstFree_drop _ _ ?bf3
        case bf3 => rfl
      · simp only [mockWrite_s_log, mockRead_s_log, List.length_append, List.length_cons,
          List.length_nil, List.nil_append]
        omega
      · exact ⟨rfl, fun h0 => ⟨rfl, rfl⟩⟩
    by_cases hk4 : kf = 4
    · subst hk4
      rw [if_neg ?cb4]
      case cb4 =>
        simp only [mockRead_ret_eq, mockWrite_ret_eq, mockRead_s_faults, mockRead_s_k,
          mockWrite_s_faults, mockWrite_s_k]
        simp [oneFault]
      rw [if_pos ?cc4]
      case cc4 =>
        simp only [mockRead_ret_eq, mockWrite_ret_eq, mockRead_s_faults, mockRead_s_k,
          mockWrite_s_faults, mockWrite_s_k]
        simpa [oneFault] using he
      rw [pg_exit_postfault _ _ 4 e ?hf4 ?hk4b]
      case hf4 => simp only [mockWrite_s_faults, mockRead_s_faults]
      case hk4b =>
        simp only [mockWrite_s_k, mockRead_s_k]
        omega
      refine ⟨fun h => ⟨?_, ?_⟩, fun h2 => ⟨?_, ?_⟩⟩
      · simp only [mockWrite_s_log, mockRead_s_log, List.length_append, List.length_cons,
          List.length_nil, List.nil_append]
        omega
      · apply burstFree_drop _ _ ?bf4
        case bf4 => rfl
      · simp only [mockWrite_s_log, mockRead_s_log, List.length_append, List.length_cons,
          List.length_nil, List.nil_append]
        omega
      · exact ⟨rfl, fun h0 => ⟨rfl, rfl⟩⟩
    by_cases hk5 : kf = 5
    · subst hk5
      rw [if_neg ?cb5]
      case cb5 =>
        simp only [mockRead_ret_eq, mockWrite_ret_eq, mockRead_s_faults, mockRead_s_k,
          mockWrite_s_faults, mockWrite_s_k]
        simp [oneFault]
      rw [if_pos ?cc5]
      case cc5 =>
        simp only [mockRead_ret_eq, mockWrite_ret_eq, mockRead_s_faults, mockRead_s_k,
          mockWrite_s_faults, mockWrite_s_k]
        simpa [oneFault] using he
      rw [pg_exit_postfault _ _ 5 e ?hf5 ?hk5b]
      case hf5 => simp only [mockWrite_s_faults, mockRead_s_faults]
      case hk5b =>
        simp only [mockWrite_s_k, mockRead_s_k]
        omega
      refine ⟨fun h => ⟨?_, ?_⟩, fun h2 => ⟨?_, ?_⟩⟩
      · simp only [mockWrite_s_log, mockRead_s_log, List.length_append, List.length_cons,
          List.length_nil, List.nil_append]
        omega
      · apply burstFree_drop _ _ ?bf5
        case bf5 => rfl
      · simp only [mockWrite_s_log, mockRead_s_log, List.length_append, List.length_cons,
          List.length_nil, List.nil_append]
        omega
      · exact ⟨rfl, fun h0 => ⟨rfl, rfl⟩⟩
    by_cases hk6 : kf = 6
    · subst hk6
      rw [if_neg ?cb6]
      case cb6 =>
        simp only [mockRead_ret_eq, mockWrite_ret_eq, mockRead_s_faults, mockRead_s_k,
          mockWrite_s_faults, mockWrite_s_k]
        simp [oneFault]
      rw [if_neg ?cc6]
      case cc6 =>
        simp only [mockRead_ret_eq, mockWrite_ret_eq, mockRead_s_faults, mockRead_s_k,
          mockWrite_s_faults, mockWrite_s_k]
        simp [oneFault]
      rw [if_pos ?cd6]
      case cd6 =>
        simp only [mockRead_ret_eq, mockWrite_ret_eq, mockRead_s_faults, mockRead_s_k,
          mockWrite_s_faults, mockWrite_s_k]
        simpa [oneFault] using he
      rw [pg_exit_postfault _ _ 6 e ?hf6 ?hk6b]
      case hf6 => simp only [mockWrite_s_faults, mockRead_s_faults]
      case hk6b =>
        simp only [mockWrite_s_k, mockRead_s_k]
        omega
      refine ⟨fun h => ⟨?_, ?_⟩, fun h2 => ⟨?_, ?_⟩⟩
      · simp only [mockWrite_s_log, mockRead_s_log, List.length_append, List.length_cons,
          List.length_nil, List.nil_append]
        omega
      · exact burstFree_drop_append _ _ _ (by
          simp only [mockWrite_s_log, mockRead_s_log, List.length_append, List.length_cons,
            List.length_nil, List.nil_append]
          omega) (by rfl)
      · simp only [mockWrite_s_log, mockRead_s_log, List.length_append, List.length_cons,
          List.length_nil, List.nil_append]
        omega
      · exact ⟨rfl, fun h0 => ⟨rfl, rfl⟩⟩
    -- the fault lies at transaction 7 or later: the whole setup is clean
    rw [if_neg ?cb7]
    case cb7 =>
      simp only [mockRead_ret_eq, mockWrite_ret_eq, mockRead_s_faults, mockRead_s_k]
      simp only [oneFault]
      rw [if_neg (by omega), if_neg (by omega)]
      simp
    rw [if_neg ?cc7]
    case cc7 =>
      simp only [mockRead_ret_eq, mockWrite_ret_eq, mockRead_s_faults, mockRead_s_k,
        mockWrite_s_faults, mockWrite_s_k]
      simp only [oneFault]
      rw [if_neg (by omega), if_neg (by omega)]
      simp
    rw [if_neg ?cd7]
    case cd7 =>
      simp only [mockWrite_ret_eq, mockRead_s_faults, mockRead_s_k,
        mockWrite_s_faults, mockWrite_s_k]
      simp only [oneFault]
      rw [if_neg (by omega)]
      simp
    refine wtail_1f _ _ _ _ kf e he ?hf7 ?hl7 ?hk7
    case hf7 => simp only [mockWrite_s_faults, mockRead_s_faults]
    case hl7 =>
      simp only [mockWrite_s_log, mockRead_s_log, mockWrite_s_k, mockRead_s_k,
        List.append_assoc, List.singleton_append, List.cons_append,
        List.length_append, List.length_cons, List.length_nil]
    case hk7 =>
      simp only [mockWrite_s_k, mockRead_s_k]
      omega
  · -- fault at transaction 0
    simp only [] at hB heq
    rw [heq]
    rw [if_pos he]
    constructor
    · intro h
      constructor
      · simp only [List.nil_append, List.length_cons, List.length_nil]
        omega
      · apply burstFree_drop
        simp [burstFree]
    · intro h2
      omega
  · -- fault at transaction 1
    simp only [] at hC heq
    rw [heq]
    rw [if_pos he]
    constructor
    · intro h
      constructor
      · simp only [List.nil_append, List.length_cons, List.length_nil]
        omega
      · apply burstFree_drop
        simp [burstFree, rdTx]
    · intro h2
      omega

set_option maxHeartbeats 1000000 in
lemma read_call_1f (d : Dev) (a : Nat) (len kf : Nat) (e : Int)
    (he : e ≠ 0) :
    (kf < (lsm6dso32_ln_pg_read mockCtx (ms0 d (oneFault kf e)) a len).s.log.length →
      (lsm6dso32_ln_pg_read mockCtx (ms0 d (oneFault kf e)) a len).s.log.length ≤ kf + 4 ∧
      burstFree ((lsm6dso32_ln_pg_read mockCtx (ms0 d (oneFault kf e)) a len).s.log.drop (kf + 1)) = true) ∧
    (2 ≤ kf →
      0 < (lsm6dso32_ln_pg_read mockCtx (ms0 d (oneFault kf e)) a len).s.log.length ∧
      (lastTx (lsm6dso32_ln_pg_read mockCtx (ms0 d (oneFault kf e)) a len).s.log).reg = LSM6DSO32_FUNC_CFG_ACCESS ∧
      ((lastTx (lsm6dso32_ln_pg_read mockCtx (ms0 d (oneFault kf e)) a len).s.log).st = 0 →
        (lastTx (lsm6dso32_ln_pg_read mockCtx (ms0 d (oneFault kf e)) a len).s.log).w = true ∧
        (lastTx (lsm6dso32_ln_pg_read mockCtx (ms0 d (oneFault kf e)) a len).s.log).val = LSM6DSO32_USER_BANK)) := by
  simp only [lsm6dso32_ln_pg_read, ms0]
  rcases mbs_1f ⟨d, [], 0, oneFault kf e⟩ LSM6DSO32_EMBEDDED_FUNC_BANK kf e he rfl
    (by simp) with ⟨hA, heq⟩ | ⟨hB, heq⟩ | ⟨hC, heq⟩
  · -- bank switch succeeded, kf is at least 2
    rw [heq]
    simp only [ctx_read_eq, ctx_write_eq]
    rw [if_neg ?r00]
    case r00 => simp
    by_cases hk2 : kf = 2
    · subst hk2
      rw [if_pos ?rb2]
      case rb2 =>
        simp only [mockRead_ret_eq, mockWrite_ret_eq, mockRead_s_faults, mockRead_s_k,
          mockWrite_s_faults, mockWrite_s_k]
        simpa [oneFault] using he
      rw [pg_exit_postfault _ _ 2 e ?rf2 ?rk2b]
      case rf2 => simp only [mockWrite_s_faults, mockRead_s_faults]
      case rk2b =>
        simp only [mockWrite_s_k, mockRead_s_k]
        omega
      refine ⟨fun h => ⟨?_, ?_⟩, fun h2 => ⟨?_, ?_⟩⟩
      · simp only [mockWrite_s_log, mockRead_s_log, List.length_append, List.length_cons,
          List.length_nil, List.nil_append]
        omega
      · apply burstFree_drop _ _ ?rg2
        case rg2 => rfl
      · simp only [mockWrite_s_log, mockRead_s_log, List.length_append, List.length_cons,
          List.length_nil, List.nil_append]
        omega
      · exact ⟨rfl, fun h0 => ⟨rfl, rfl⟩⟩
    by_cases hk3 : kf = 3
    · subst hk3
      rw [if_pos ?rb3]
      case rb3 =>
        simp only [mockRead_ret_eq, mockWrite_ret_eq, mockRead_s_faults, mockRead_s_k,
          mockWrite_s_faults, mockWrite_s_k]
        simpa [oneFault] using he
      rw [pg_exit_postfault _ _ 3 e ?rf3 ?rk3b]
      case rf3 => simp only [mockWrite_s_faults, mockRead_s_faults]
      case rk3b =>
        simp only [mockWrite_s_k, mockRead_s_k]
        omega
      refine ⟨fun h => ⟨?_, ?_⟩, fun h2 => ⟨?_, ?_⟩⟩
      · simp only [mockWrite_s_log, mockRead_s_log, List.length_append, List.length_cons,
          List.length_nil, List.nil_append]
        omega
      · apply burstFree_drop _ _ ?rg3
        case rg3 => rfl
      · simp only [mockWrite_s_log, mockRead_s_log, List.length_append, List.length_cons,
          List.length_nil, List.nil_append]
        omega
      · exact ⟨rfl, fun h0 => ⟨rfl, rfl⟩⟩
    by_cases hk4 : kf = 4
    · subst hk4
      rw [if_neg ?rb4]
      case rb4 =>
        simp only [mockRead_ret_eq, mockWrite_ret_eq, mockRead_s_faults, mockRead_s_k,
          mockWrite_s_faults, mockWrite_s_k]
        simp [oneFault]
      rw [if_pos ?rc4]
      case rc4 =>
        simp only [mockRead_ret_eq, mockWrite_ret_eq, mockRead_s_faults, mockRead_s_k,
          mockWrite_s_faults, mockWrite_s_k]
        simpa [oneFault] using he
      rw [pg_exit_postfault _ _ 4 e ?rf4 ?rk4b]
      case rf4 => simp only [mockWrite_s_faults, mockRead_s_faults]
      case rk4b =>
        simp only [mockWrite_s_k, mockRead_s_k]
        omega
      refine ⟨fun h => ⟨?_, ?_⟩, fun h2 => ⟨?_, ?_⟩⟩
      · simp only [mockWrite_s_log, mockRead_s_log, List.length_append, List.length_cons,
          List.length_nil, List.nil_append]
        omega
      · apply burstFree_drop _ _ ?rg4
        case rg4 => rfl
      · simp only [mockWrite_s_log, mockRead_s_log, List.length_append, List.length_cons,
          List.length_nil, List.nil_append]
        omega
      · exact ⟨rfl, fun h0 => ⟨rfl, rfl⟩⟩
    by_cases hk5 : kf = 5
    · subst hk5
      rw [if_neg ?rb5]
      case rb5 =>
        simp only [mockRead_ret_eq, mockWrite_ret_eq, mockRead_s_faults, mockRead_s_k,
          mockWrite_s_faults, mockWrite_s_k]
        simp [oneFault]
      rw [if_pos ?rc5]
      case rc5 =>
        simp only [mockRead_ret_eq, mockWrite_ret_eq, mockRead_s_faults, mockRead_s_k,
          mockWrite_s_faults, mockWrite_s_k]
        simpa [oneFault] using he
      rw [pg_exit_postfault _ _ 5 e ?rf5 ?rk5b]
      case rf5 => simp only [mockWrite_s_faults, mockRead_s_faults]
      case rk5b =>
        simp only [mockWrite_s_k, mockRead_s_k]
        omega
      refine ⟨fun h => ⟨?_, ?_⟩, fun h2 => ⟨?_, ?_⟩⟩
      · simp only [mockWrite_s_log, mockRead_s_log, List.length_append, List.length_cons,
          List.length_nil, List.nil_append]
        omega
      · apply burstFree_drop _ _ ?rg5
        case rg5 => rfl
      · simp only [mockWrite_s_log, mockRead_s_log, List.length_append, List.length_cons,
          List.length_nil, List.nil_append]
        omega
      · exact ⟨rfl, fun h0 => ⟨rfl, rfl⟩⟩
    -- the fault lies at transaction 6 or later: the whole setup is clean
    rw [if_neg ?rb7]
    case rb7 =>
      simp only [mockRead_ret_eq, mockWrite_ret_eq, mockRead_s_faults, mockRead_s_k]
      simp only [oneFault]
      rw [if_neg (by omega), if_neg (by omega)]
      simp
    rw [if_neg ?rc7]
    case rc7 =>
      simp only [mockRead_ret_eq, mockWrite_ret_eq, mockRead_s_faults, mockRead_s_k,
        mockWrite_s_faults, mockWrite_s_k]
      simp only [oneFault]
      rw [if_neg (by omega), if_neg (by omega)]
      simp
    refine rtail_1f _ _ _ _ kf e he ?rf7 ?rl7 ?rk7
    case rf7 => simp only [mockWrite_s_faults, mockRead_s_faults]
    case rl7 =>
      simp only [mockWrite_s_log, mockRead_s_log, mockWrite_s_k, mockRead_s_k,
        List.append_assoc, List.singleton_append, List.cons_append,
        List.length_append, List.length_cons, List.length_nil]
    case rk7 =>
      simp only [mockWrite_s_k, mockRead_s_k]
      omega
  · -- fault at transaction 0
    simp only [] at hB
    rw [heq]
    rw [if_pos he]
    constructor
    · intro h
      constructor
      · simp only [List.nil_append, List.length_cons, List.length_nil]
        omega
      · apply burstFree_drop
        simp [burstFree]
    · intro h2
      omega
  · -- fault at transaction 1
    simp only [] at hC
    rw [heq]
    rw [if_pos he]
    constructor
    · intro h
      constructor
      · simp only [List.nil_append, List.length_cons, List.length_nil]
        omega
      · apply burstFree_drop
        simp [burstFree, rdTx]
    · intro h2
      omega

/-- Claim C3 (corrected): with a single injected nonzero status on transaction
number kf, each paged-window routine issues at most three further transactions
after the failing one, and none of the transactions past position kf touches
PAGE_VALUE or PAGE_ADDRESS: the in-progress burst is aborted.  (The spec's
stronger reading - nothing beyond the bank-restore cleanup - fails: the second
half of an in-progress read-modify-write pair is still issued, see the
counterexample.) -/
theorem C3_first_failure_aborts_burst (d : Dev) (a : Nat) (buf : List Nat)
    (len : Nat) (aR lenR kf : Nat) (e : Int) (he : e ≠ 0) :
    (kf < (lsm6dso32_ln_pg_write mockCtx (ms0 d (oneFault kf e)) a buf len).s.log.length →
      (lsm6dso32_ln_pg_write mockCtx (ms0 d (oneFault kf e)) a buf len).s.log.length ≤ kf + 4 ∧
      burstFree ((lsm6dso32_ln_pg_write mockCtx (ms0 d (oneFault kf e)) a buf len).s.log.drop (kf + 1)) = true) ∧
    (kf < (lsm6dso32_ln_pg_read mockCtx (ms0 d (oneFault kf e)) aR lenR).s.log.length →
      (lsm6dso32_ln_pg_read mockCtx (ms0 d (oneFault kf e)) aR lenR).s.log.length ≤ kf + 4 ∧
      burstFree ((lsm6dso32_ln_pg_read mockCtx (ms0 d (oneFault kf e)) aR lenR).s.log.drop (kf + 1)) = true) :=
  ⟨(write_call_1f d a buf len kf e he).1, (read_call_1f d aR lenR kf e he).1⟩

/-- Witness for C3 at a concrete fault inside the write and read transfer
loops (fault on transaction 7, a one-byte write at address 256 and a
two-byte read at address 0). -/
theorem C3_witness :
    ((-1 : Int) ≠ 0) ∧
    (7 < (lsm6dso32_ln_pg_write mockCtx (ms0 dev0 (oneFault 7 (-1))) 256 [5] 1).s.log.length →
      (lsm6dso32_ln_pg_write mockCtx (ms0 dev0 (oneFault 7 (-1))) 256 [5] 1).s.log.length ≤ 7 + 4 ∧
      burstFree ((lsm6dso32_ln_pg_write mockCtx (ms0 dev0 (oneFault 7 (-1))) 256 [5] 1).s.log.drop (7 + 1)) = true) ∧
    (7 < (lsm6dso32_ln_pg_read mockCtx (ms0 dev0 (oneFault 7 (-1))) 0 2).s.log.length →
      (lsm6dso32_ln_pg_read mockCtx (ms0 dev0 (oneFault 7 (-1))) 0 2).s.log.length ≤ 7 + 4 ∧
      burstFree ((lsm6dso32_ln_pg_read mockCtx (ms0 dev0 (oneFault 7 (-1))) 0 2).s.log.drop (7 + 1)) = true) :=
  ⟨by decide, (C3_first_failure_aborts_burst dev0 256 [5] 1 0 2 7 (-1) (by decide)).1,
    (C3_first_failure_aborts_burst dev0 256 [5] 1 0 2 7 (-1) (by decide)).2⟩

/-- Counterexample to the literal C3: with the fault injected on transaction 2
(the read of the PAGE_RW read-modify-write pair) of a zero-length write call,
transaction 3 is still issued and is a PAGE_RW write - a further register
transaction beyond the bank-restore cleanup. -/
theorem C3_counterexample :
    ((lsm6dso32_ln_pg_write mockCtx (ms0 dev0 (oneFault 2 (-1))) 0 [] 0).s.log.getD 2 txD).st
        ≠ 0 ∧
    ((lsm6dso32_ln_pg_write mockCtx (ms0 dev0 (oneFault 2 (-1))) 0 [] 0).s.log.getD 3 txD).reg =
        LSM6DSO32_PAGE_RW ∧
    ((lsm6dso32_ln_pg_write mockCtx (ms0 dev0 (oneFault 2 (-1))) 0 [] 0).s.log.getD 3 txD).reg
        ≠ LSM6DSO32_FUNC_CFG_ACCESS ∧
    (lsm6dso32_ln_pg_write mockCtx (ms0 dev0 (oneFault 2 (-1))) 0 [] 0).s.log.length = 6 := by
  decide

/-- Claim C4 (corrected): whenever the initial bank switch has succeeded (the
injected fault lies at transaction 2 or later), both routines end their
transaction sequence on a FUNC_CFG_ACCESS access - the bank-restore attempt -
and if that final transaction succeeded it is the write restoring
LSM6DSO32_USER_BANK.  (The unconditional spec reading fails: when the initial
bank-switch read itself faults the routines return at once with no restore,
see the counterexample.) -/
theorem C4_bank_restore_attempted (d : Dev) (a : Nat) (buf : List Nat)
    (len : Nat) (aR lenR kf : Nat) (e : Int) (he : e ≠ 0) (hkf : 2 ≤ kf) :
    (0 < (lsm6dso32_ln_pg_write mockCtx (ms0 d (oneFault kf e)) a buf len).s.log.length ∧
      (lastTx (lsm6dso32_ln_pg_write mockCtx (ms0 d (oneFault kf e)) a buf len).s.log).reg = LSM6DSO32_FUNC_CFG_ACCESS ∧
      ((lastTx (lsm6dso32_ln_pg_write mockCtx (ms0 d (oneFault kf e)) a buf len).s.log).st = 0 →
        (lastTx (lsm6dso32_ln_pg_write mockCtx (ms0 d (oneFault kf e)) a buf len).s.log).w = true ∧
        (lastTx (lsm6dso32_ln_pg_write mockCtx (ms0 d (oneFault kf e)) a buf len).s.log).val = LSM6DSO32_USER_BANK)) ∧
    (0 < (lsm6dso32_ln_pg_read mockCtx (ms0 d (oneFault kf e)) aR lenR).s.log.length ∧
      (lastTx (lsm6dso32_ln_pg_read mockCtx (ms0 d (oneFault kf e)) aR lenR).s.log).reg = LSM6DSO32_FUNC_CFG_ACCESS ∧
      ((lastTx (lsm6dso32_ln_pg_read mockCtx (ms0 d (oneFault kf e)) aR lenR).s.log).st = 0 →
        (lastTx (lsm6dso32_ln_pg_read mockCtx (ms0 d (oneFault kf e)) aR lenR).s.log).w = true ∧
        (lastTx (lsm6dso32_ln_pg_read mockCtx (ms0 d (oneFault kf e)) aR lenR).s.log).val = LSM6DSO32_USER_BANK)) :=
  ⟨(write_call_1f d a buf len kf e he).2 hkf, (read_call_1f d aR lenR kf e he).2 hkf⟩

/-- Witness for C4 at a concrete fault (transaction 3, the PAGE_RW write of
the enable pair) for zero-length write and read calls. -/
theorem C4_witness :
    ((-1 : Int) ≠ 0) ∧ 2 ≤ 3 ∧
    ((0 < (lsm6dso32_ln_pg_write mockCtx (ms0 dev0 (oneFault 3 (-1))) 0 [] 0).s.log.length ∧
      (lastTx (lsm6dso32_ln_pg_write mockCtx (ms0 dev0 (oneFault 3 (-1))) 0 [] 0).s.log).reg = LSM6DSO32_FUNC_CFG_ACCESS ∧
      ((lastTx (lsm6dso32_ln_pg_write mockCtx (ms0 dev0 (oneFault 3 (-1))) 0 [] 0).s.log).st = 0 →
        (lastTx (lsm6dso32_ln_pg_write mockCtx (ms0 dev0 (oneFault 3 (-1))) 0 [] 0).s.log).w = true ∧
        (lastTx (lsm6dso32_ln_pg_write mockCtx (ms0 dev0 (oneFault 3 (-1))) 0 [] 0).s.log).val = LSM6DSO32_USER_BANK)) ∧
    (0 < (lsm6dso32_ln_pg_read mockCtx (ms0 dev0 (oneFault 3 (-1))) 0 0).s.log.length ∧
      (lastTx (lsm6dso32_ln_pg_read mockCtx (ms0 dev0 (oneFault 3 (-1))) 0 0).s.log).reg = LSM6DSO32_FUNC_CFG_ACCESS ∧
      ((lastTx (lsm6dso32_ln_pg_read mockCtx (ms0 dev0 (oneFault 3 (-1))) 0 0).s.log).st = 0 →
        (lastTx (lsm6dso32_ln_pg_read mockCtx (ms0 dev0 (oneFault 3 (-1))) 0 0).s.log).w = true ∧
        (lastTx (lsm6dso32_ln_pg_read mockCtx (ms0 dev0 (oneFault 3 (-1))) 0 0).s.log).val = LSM6DSO32_USER_BANK))) :=
  ⟨by decide, by decide,
    C4_bank_restore_attempted dev0 0 [] 0 0 0 3 (-1) (by decide) (by decide)⟩

/-- Counterexample to the literal C4: when the very first transaction (the
read of the initial bank switch) faults, the write call returns after that
single transaction - the log holds no write at all, so the user-bank restore
was never executed. -/
theorem C4_counterexample :
    (lsm6dso32_ln_pg_write mockCtx (ms0 dev0 (oneFault 0 (-1))) 0 [] 0).s.log.length = 1 ∧
    countWr (lsm6dso32_ln_pg_write mockCtx (ms0 dev0 (oneFault 0 (-1))) 0 [] 0).s.log
      LSM6DSO32_FUNC_CFG_ACCESS = 0 ∧
    (lsm6dso32_ln_pg_read mockCtx (ms0 dev0 (oneFault 0 (-1))) 0 0).s.log.length = 1 ∧
    countWr (lsm6dso32_ln_pg_read mockCtx (ms0 dev0 (oneFault 0 (-1))) 0 0).s.log
      LSM6DSO32_FUNC_CFG_ACCESS = 0 := by
  decide
